import Mathlib

/-!
Verification of the ICMP probe core of the pingers repository.

The probe buffer is modelled as a `List Nat` of byte values; every write
truncates to a byte with `% 256`, mirroring the `u8` stores performed by the
pnet packet setters.  Field offsets and length computations are transcribed
from the pnet crate generated accessors used by `src/probes/icmp.rs`
(`MutableEthernetPacket`, `MutableIpv4Packet`, `MutableEchoRequestPacket`,
`IcmpPacket`, `EchoReplyPacket`) and from the two checksum helpers
`pnet::packet::ipv4::checksum` and `pnet::packet::icmp::checksum`, which both
delegate to `pnet::util::checksum` (a ones-complement sum of big-endian
16-bit words that skips the word at a given index).  A Rust panic
(`expect`, slice out of range, debug-mode integer underflow) is modelled by
`Option.none`; a normal return is `Option.some`.
-/

/-- A MAC address: six byte-valued fields, as in `pnet::util::MacAddr`. -/
structure MacAddr where
  a : Nat
  b : Nat
  c : Nat
  d : Nat
  e : Nat
  f : Nat
deriving DecidableEq

/-- An IPv4 address: four byte-valued octets, as in `std::net::Ipv4Addr`. -/
structure Ipv4Addr where
  o1 : Nat
  o2 : Nat
  o3 : Nat
  o4 : Nat
deriving DecidableEq

/-- The `ethernet_info` part of `EthernetConf`: resolved source and
destination MAC and the ethertype used for outgoing frames. -/
structure EthernetInfo where
  source : MacAddr
  destination : MacAddr
  ethertype : Nat
deriving DecidableEq

/-- The interface part of `EthernetConf`: the source IPv4 address. -/
structure Interface where
  address : Ipv4Addr
deriving DecidableEq

/-- The `EthernetConf` consumed by `IcmpProbe::new`. -/
structure EthernetConf where
  ethernet_info : EthernetInfo
  interface : Interface
deriving DecidableEq

/-- `TargetParams` from the prober module: correlation key of one attempt. -/
structure TargetParams where
  addr : Ipv4Addr
  seq : Nat
deriving DecidableEq

/-- The (empty) output value produced for a validated reply. -/
structure IcmpOutput where
deriving DecidableEq

/-- One parsed target record of `main.rs`. -/
structure Target where
  addr : Ipv4Addr
  count : Nat
  interval : Nat
deriving DecidableEq

/-- All six MAC fields are in byte range. -/
def MacAddr.Valid (m : MacAddr) : Prop :=
  m.a < 256 ∧ m.b < 256 ∧ m.c < 256 ∧ m.d < 256 ∧ m.e < 256 ∧ m.f < 256

/-- All four octets are in byte range. -/
def Ipv4Addr.Valid (a : Ipv4Addr) : Prop :=
  a.o1 < 256 ∧ a.o2 < 256 ∧ a.o3 < 256 ∧ a.o4 < 256

/-- The configuration carries machine-representable field values: MACs are
bytes, the ethertype is a 16-bit value, the interface address is an IPv4. -/
def EthernetConf.Valid (c : EthernetConf) : Prop :=
  c.ethernet_info.source.Valid ∧ c.ethernet_info.destination.Valid ∧
    c.ethernet_info.ethertype < 65536 ∧ c.interface.address.Valid

instance : DecidablePred MacAddr.Valid := fun m => by
  unfold MacAddr.Valid; infer_instance

instance : DecidablePred Ipv4Addr.Valid := fun a => by
  unfold Ipv4Addr.Valid; infer_instance

instance : DecidablePred EthernetConf.Valid := fun c => by
  unfold EthernetConf.Valid; infer_instance

/-- Store one byte: pnet setters write `val as u8`. -/
def setByte (l : List Nat) (i v : Nat) : List Nat :=
  l.set i (v % 256)

/-- Store a big-endian 16-bit value: high byte `v >> 8`, low byte `v & 0xff`,
as the pnet `u16be` setters do. -/
def setU16 (l : List Nat) (i v : Nat) : List Nat :=
  setByte (setByte l i (v / 256)) (i + 1) v

/-- Read a big-endian 16-bit value, as the pnet `u16be` getters do. -/
def readU16 (l : List Nat) (i : Nat) : Nat :=
  l.getD i 0 * 256 + l.getD (i + 1) 0

/-- Overwrite the high nibble of byte `i`, keeping the low nibble
(`packet[i] = (packet[i] & 0x0f) | ((v & 0x0f) << 4)`). -/
def setHighNib (l : List Nat) (i v : Nat) : List Nat :=
  l.set i (l.getD i 0 % 16 + v % 16 * 16)

/-- Overwrite the low nibble of byte `i`, keeping the high nibble
(`packet[i] = (packet[i] & 0xf0) | (v & 0x0f)`). -/
def setLowNib (l : List Nat) (i v : Nat) : List Nat :=
  l.set i (l.getD i 0 / 16 * 16 + v % 16)

/-- Store the six bytes of a MAC address starting at offset `i`. -/
def writeMac (l : List Nat) (i : Nat) (m : MacAddr) : List Nat :=
  setByte (setByte (setByte (setByte (setByte (setByte l i m.a)
    (i + 1) m.b) (i + 2) m.c) (i + 3) m.d) (i + 4) m.e) (i + 5) m.f

/-- Store the four octets of an IPv4 address starting at offset `i`. -/
def writeIp (l : List Nat) (i : Nat) (a : Ipv4Addr) : List Nat :=
  setByte (setByte (setByte (setByte l i a.o1) (i + 1) a.o2)
    (i + 2) a.o3) (i + 3) a.o4

/-- Zero a big-endian 16-bit field at offset `i` (both bytes). -/
def zero2 (l : List Nat) (i : Nat) : List Nat :=
  (l.set i 0).set (i + 1) 0

/-- The big-endian 16-bit words of a byte sequence (complete pairs only),
as read by `pnet::util::sum_be_words`. -/
def beWords : List Nat → List Nat
  | a :: b :: rest => (a * 256 + b) :: beWords rest
  | _ => []

/-- The contribution of a trailing odd byte, which `sum_be_words` adds as the
high byte of a final word. -/
def trailingByte : List Nat → Nat
  | [] => 0
  | [a] => a * 256
  | _ :: _ :: rest => trailingByte rest

/-- Sum of a word list with the word at index `k` skipped; indices past the
end skip nothing, matching the clamp in `pnet::util::sum_be_words`. -/
def sumExcept : List Nat → Nat → Nat
  | [], _ => 0
  | _ :: ws, 0 => ws.sum
  | w :: ws, k + 1 => w + sumExcept ws k

/-- Fold the carries of a ones-complement sum into 16 bits, as
`pnet::util::finalize_checksum` does with its `while sum >> 16 != 0` loop. -/
def foldCarry (s : Nat) : Nat :=
  if h : s < 65536 then s
  else foldCarry (s / 65536 + s % 65536)
termination_by s
decreasing_by
  have hd : 1 ≤ s / 65536 := (Nat.one_le_div_iff (by omega)).mpr (by omega)
  omega

theorem foldCarry_lt (s : Nat) : foldCarry s < 65536 := by
  induction s using Nat.strong_induction_on with
  | _ s ih =>
    rw [foldCarry]
    split
    · assumption
    · rename_i h
      apply ih
      have hd : 1 ≤ s / 65536 := (Nat.one_le_div_iff (by omega)).mpr (by omega)
      omega

/-- The pnet checksum: ones complement of the folded sum of big-endian words
with the word at index `skip` left out (`pnet::util::checksum`). -/
def pnetChecksum (data : List Nat) (skip : Nat) : Nat :=
  65535 - foldCarry (sumExcept (beWords data) skip + trailingByte data)

theorem pnetChecksum_le (data : List Nat) (skip : Nat) :
    pnetChecksum data skip ≤ 65535 := by
  unfold pnetChecksum; omega

/-- The RFC 1071 checksum used by RFC 791 and RFC 792: ones complement of the
folded ones-complement sum of all big-endian 16-bit words of the data,
the checksum field itself being zeroed in the data. -/
def rfcChecksum (data : List Nat) : Nat :=
  65535 - foldCarry ((beWords data).sum + trailingByte data)

theorem sumExcept_add_getD (ws : List Nat) (k : Nat) :
    sumExcept ws k + ws.getD k 0 = ws.sum := by
  induction ws generalizing k with
  | nil => simp [sumExcept]
  | cons w ws ih =>
    cases k with
    | zero => simp [sumExcept, List.sum_cons]; omega
    | succ k =>
      simp only [sumExcept, List.sum_cons, List.getD_cons_succ]
      have := ih k
      omega

/-- Skipping a zero word is the same as summing every word, so the pnet
checksum of data whose skipped word is zero is the RFC 1071 checksum. -/
theorem pnetChecksum_eq_rfc (data : List Nat) (k : Nat)
    (h : (beWords data).getD k 0 = 0) :
    pnetChecksum data k = rfcChecksum data := by
  unfold pnetChecksum rfcChecksum
  have := sumExcept_add_getD (beWords data) k
  rw [h, Nat.add_zero] at this
  rw [this]

/-- The IPv4 header-length field: low nibble of byte 0 (pnet
`Ipv4Packet::get_header_length`). -/
def ipv4HeaderLengthField (p : List Nat) : Nat :=
  p.getD 0 0 % 16

/-- The IPv4 total-length field: big-endian 16-bit word at bytes 2 and 3
(pnet `Ipv4Packet::get_total_length`). -/
def ipv4TotalLength (p : List Nat) : Nat :=
  readU16 p 2

/-- Length in bytes of the IPv4 options, `(header_length * 4) - 20`
saturating at zero, as in the pnet `ipv4_options_length` length function. -/
def ipv4OptionsLength (p : List Nat) : Nat :=
  ipv4HeaderLengthField p * 4 - 20

/-- Declared length of the IPv4 payload,
`total_length - (20 + options_length)` saturating at zero, as in the pnet
`ipv4_payload_length` length function. -/
def ipv4PayloadLength (p : List Nat) : Nat :=
  ipv4TotalLength p - (20 + ipv4OptionsLength p)

/-- The payload slice returned by pnet `Ipv4Packet::payload`: the bytes from
`20 + options_length` up to `min (start + payload_length) len`, empty when
the buffer does not extend past the header. -/
def ipv4Payload (p : List Nat) : List Nat :=
  let st := 20 + ipv4OptionsLength p
  if p.length ≤ st then []
  else (p.take (min (st + ipv4PayloadLength p) p.length)).drop st

/-- The IPv4 source address, bytes 12 to 15 (pnet
`Ipv4Packet::get_source`). -/
def ipv4SourceOf (p : List Nat) : Ipv4Addr :=
  ⟨p.getD 12 0, p.getD 13 0, p.getD 14 0, p.getD 15 0⟩

/-- The IPv4 next-level protocol, byte 9 (pnet
`Ipv4Packet::get_next_level_protocol`); ICMP is protocol number 1. -/
def ipv4ProtocolOf (p : List Nat) : Nat :=
  p.getD 9 0

/-- The ICMP type byte of the reply buffer, read from the first byte of the
IPv4 payload as `is_expected_packet` does. -/
def icmpTypeOf (p : List Nat) : Nat :=
  (ipv4Payload p).getD 0 0

/-- The ICMP code byte of the reply buffer, read from the second byte of the
IPv4 payload as `is_expected_packet` does. -/
def icmpCodeOf (p : List Nat) : Nat :=
  (ipv4Payload p).getD 1 0

/-- The IPv4 header length that `is_expected_packet` derives:
the total-length field minus the length of the payload slice. -/
def replyHeaderLen (p : List Nat) : Nat :=
  ipv4TotalLength p - (ipv4Payload p).length

/-- The sequence number of the echo reply located at the derived header
length: big-endian bytes 6 and 7 of the remainder slice (pnet
`EchoReplyPacket::get_sequence_number`). -/
def replySeqOf (p : List Nat) : Nat :=
  readU16 (p.drop (replyHeaderLen p)) 6

/-- The checksum `pnet::packet::ipv4::checksum` computes: the pnet checksum
with skip word 5 over the header slice, whose length is `header_length * 4`
clamped between the 20-byte minimum and the buffer length. -/
def ipv4PnetChecksum (p : List Nat) : Nat :=
  let hl4 := ipv4HeaderLengthField p * 4
  let hl := if hl4 < 20 then 20 else if hl4 > p.length then p.length else hl4
  pnetChecksum (p.take hl) 5

/-- The checksum `pnet::packet::icmp::checksum` computes: the pnet checksum
with skip word 1 over the whole ICMP message. -/
def icmpPnetChecksum (q : List Nat) : Nat :=
  pnetChecksum q 1

/-- Minimum Ethernet frame header size used for the buffer layout. -/
def ETHERNET_PACKET_MIN_SIZE : Nat := 14

/-- Minimum IPv4 header size used for the buffer layout. -/
def IPV4_PACKET_MIN_SIZE : Nat := 20

/-- Minimum ICMP echo request size used for the buffer layout. -/
def ECHO_REQUEST_MIN_SIZE : Nat := 8

/-- Size of the pre-allocated request buffer:
Ethernet header plus IPv4 header plus ICMP echo request. -/
def ICMP_REQUEST_PACKET_SIZE : Nat :=
  ETHERNET_PACKET_MIN_SIZE + IPV4_PACKET_MIN_SIZE + ECHO_REQUEST_MIN_SIZE

/-- Minimum ICMP echo reply size (`EchoReplyPacket::minimum_packet_size`). -/
def ICMP_REPLY_PACKET_SIZE : Nat := 8

namespace IcmpProbe

/-- Embedding of `IcmpProbe::new`: starting from a zeroed buffer of
`ICMP_REQUEST_PACKET_SIZE` bytes, performs the source setter calls in order.
Ethernet: source at 6, destination at 0, ethertype at 12.  IPv4 at offset 14:
version 4, source address, protocol ICMP, header length 5, TTL 101, checksum
zeroed, total length 28, then the computed header checksum.  ICMP at the
IPv4 payload offset (derived from the header fields just written): type 8,
code 0, identifier 42.  On this fixed-size buffer every `expect` in the
source succeeds, so the construction is total. -/
def new (conf : EthernetConf) : List Nat :=
  let b0 := List.replicate ICMP_REQUEST_PACKET_SIZE 0
  let b1 := writeMac b0 6 conf.ethernet_info.source
  let b2 := writeMac b1 0 conf.ethernet_info.destination
  let b3 := setU16 b2 12 conf.ethernet_info.ethertype
  let b4 := setHighNib b3 14 4
  let b5 := writeIp b4 26 conf.interface.address
  let b6 := setByte b5 23 1
  let b7 := setLowNib b6 14 5
  let b8 := setByte b7 22 101
  let b9 := setU16 b8 24 0
  let b10 := setU16 b9 16 (IPV4_PACKET_MIN_SIZE + ECHO_REQUEST_MIN_SIZE)
  let ck := ipv4PnetChecksum (b10.drop 14)
  let b11 := setU16 b10 24 ck
  let base := 14 + (20 + ipv4OptionsLength (b11.drop 14))
  let b12 := setByte b11 base 8
  let b13 := setByte b12 (base + 1) 0
  setU16 b13 (base + 4) 42

/-- Embedding of `IcmpProbe::many` as it stands in the source: the count is
ignored and `Ok(Vec::new())` is returned; `some` models the `Ok`. -/
def many (count : Nat) : Option (List (List Nat)) :=
  some []

/-- The IPv4 stage of the per-target update: write the destination address
(`set_destination`, bytes 30 to 33 of the frame), zero the IPv4 checksum
(`set_checksum(0)`), and store the checksum recomputed over the IPv4 packet
(the frame from byte 14 on). -/
def withIpv4Fields (buf : List Nat) (addr : Ipv4Addr) : List Nat :=
  let b2 := setU16 (writeIp buf 30 addr) 24 0
  setU16 b2 24 (ipv4PnetChecksum (b2.drop 14))

/-- The ICMP stage of the per-target update: write the sequence number
(`set_sequence_number`, offset 6 of the echo request), zero the ICMP
checksum, and store the checksum recomputed over the ICMP message (the
payload slice of length `pl` starting at `base`). -/
def withIcmpFields (b : List Nat) (base pl seq : Nat) : List Nat :=
  let b5 := setU16 (setU16 b (base + 6) seq) (base + 2) 0
  setU16 b5 (base + 2) (icmpPnetChecksum ((b5.drop base).take pl))

/-- Embedding of `IcmpProbe::update_icmp_request_packet`.  The `none` cases
model the `expect` panics: locating the Ethernet layer needs 14 bytes,
locating the IPv4 layer needs 20 bytes of Ethernet payload, and locating the
echo request needs 8 bytes of IPv4 payload (whose offset and length are
derived from the header fields as pnet derives them).  Otherwise the
function performs the IPv4 stage followed by the ICMP stage. -/
def update_icmp_request_packet (buf : List Nat) (addr : Ipv4Addr) (seq : Nat) :
    Option (List Nat) :=
  if buf.length < 14 then none
  else if buf.length - 14 < 20 then none
  else
    let b3 := withIpv4Fields buf addr
    let st := 20 + ipv4OptionsLength (b3.drop 14)
    let pl := (ipv4Payload (b3.drop 14)).length
    if pl < 8 then none
    else some (withIcmpFields b3 (14 + st) pl seq)

/-- The buffer produced by building the template for `conf` and updating it
for `(addr, seq)`; the update always succeeds on the template. -/
def frameBytes (conf : EthernetConf) (addr : Ipv4Addr) (seq : Nat) : List Nat :=
  (update_icmp_request_packet (new conf) addr seq).getD []

end IcmpProbe

/-- Embedding of the free function `is_expected_packet`.  Panic points
(`expect` on too-short buffers, debug-mode underflow of the header-length
subtraction, out-of-range slicing) are `none`; the boolean is the function
result otherwise. -/
def is_expected_packet (buf : List Nat) (addr : Ipv4Addr) (seq : Nat) :
    Option Bool :=
  if buf.length < 20 then none
  else if ipv4SourceOf buf ≠ addr then some false
  else if ipv4ProtocolOf buf ≠ 1 then some false
  else if (ipv4Payload buf).length < 4 then none
  else if ¬(icmpTypeOf buf = 0 ∧ icmpCodeOf buf = 0) then some false
  else if ipv4TotalLength buf < (ipv4Payload buf).length then none
  else if buf.length < replyHeaderLen buf then none
  else if (buf.drop (replyHeaderLen buf)).length < 8 then none
  else some (decide (replySeqOf buf = seq))

namespace IcmpProbe

/-- Embedding of `Probe::validate_response` for `IcmpProbe`: wraps
`is_expected_packet`, producing `Some(IcmpOutput)` on acceptance and `None`
on rejection; the outer option models panic as in the rest of the file. -/
def validate_response (buf : List Nat) (tparams : TargetParams) :
    Option (Option IcmpOutput) :=
  match is_expected_packet buf tparams.addr tparams.seq with
  | none => none
  | some true => some (some ⟨⟩)
  | some false => some none

end IcmpProbe

/-- Embedding of the per-target validation in `main`: the four range checks,
in source order, each producing the configuration error message of the
source; `Except.ok` models a target that is pushed onto the accepted list. -/
def checkTarget (t : Target) : Except String Unit :=
  if t.interval < 1 then
    Except.error "interval must be between 1 and 1000 (ms)"
  else if t.interval > 1000 then
    Except.error "interval must be between 1 and 1000 (ms)"
  else if t.count < 1 then
    Except.error "count must be between 1 and 10"
  else if t.count > 10 then
    Except.error "count must be between 1 and 10"
  else Except.ok ()


@[simp]
theorem length_setByte (l : List Nat) (i v : Nat) :
    (setByte l i v).length = l.length := by
  simp [setByte]

@[simp]
theorem length_setU16 (l : List Nat) (i v : Nat) :
    (setU16 l i v).length = l.length := by
  simp [setU16]

@[simp]
theorem length_writeIp (l : List Nat) (i : Nat) (a : Ipv4Addr) :
    (writeIp l i a).length = l.length := by
  simp [writeIp]

@[simp]
theorem length_writeMac (l : List Nat) (i : Nat) (m : MacAddr) :
    (writeMac l i m).length = l.length := by
  simp [writeMac]

@[simp]
theorem length_setHighNib (l : List Nat) (i v : Nat) :
    (setHighNib l i v).length = l.length := by
  simp [setHighNib]

@[simp]
theorem length_setLowNib (l : List Nat) (i v : Nat) :
    (setLowNib l i v).length = l.length := by
  simp [setLowNib]

theorem length_new (conf : EthernetConf) : (IcmpProbe.new conf).length = 42 := by
  simp [IcmpProbe.new, ICMP_REQUEST_PACKET_SIZE, ETHERNET_PACKET_MIN_SIZE,
    IPV4_PACKET_MIN_SIZE, ECHO_REQUEST_MIN_SIZE]

theorem getD_setByte_ne (l : List Nat) (i j v : Nat) (h : i ≠ j) :
    (setByte l i v).getD j 0 = l.getD j 0 := by
  simp [setByte, List.getD_eq_getElem?_getD, List.getElem?_set_ne h]

theorem getD_setByte_eq (l : List Nat) (i v : Nat) (h : i < l.length) :
    (setByte l i v).getD i 0 = v % 256 := by
  simp [setByte, List.getD_eq_getElem?_getD, List.getElem?_set_self h]

theorem getD_drop (l : List Nat) (n i : Nat) :
    (l.drop n).getD i 0 = l.getD (n + i) 0 := by
  simp [List.getD_eq_getElem?_getD, List.getElem?_drop]

/-- The ten frame bytes rewritten by the per-target update: the IPv4 checksum
(24, 25), the destination address (30 to 33), the ICMP checksum (36, 37) and
the ICMP sequence number (40, 41). -/
def mutableIdx (i : Nat) : Prop :=
  (24 ≤ i ∧ i ≤ 25) ∨ (30 ≤ i ∧ i ≤ 33) ∨ (36 ≤ i ∧ i ≤ 37) ∨
    (40 ≤ i ∧ i ≤ 41)

instance : DecidablePred mutableIdx := fun i => by
  unfold mutableIdx; infer_instance

/-- On a buffer with the template dimensions (42 bytes, version nibble 4 and
header-length nibble 5 at byte 14, total length 28 at bytes 16 and 17), the
per-target update succeeds and consists of the IPv4 stage followed by the
ICMP stage at payload offset 34 with payload length 8. -/
theorem update_shape (b : List Nat) (a : Ipv4Addr) (s : Nat)
    (hlen : b.length = 42) (h14 : b.getD 14 0 = 69)
    (h16 : b.getD 16 0 = 0) (h17 : b.getD 17 0 = 28) :
    IcmpProbe.update_icmp_request_packet b a s =
      some (IcmpProbe.withIcmpFields (IcmpProbe.withIpv4Fields b a) 34 8 s) := by
  have hb3len : (IcmpProbe.withIpv4Fields b a).length = 42 := by
    simp [IcmpProbe.withIpv4Fields, hlen]
  have h3_14 : (IcmpProbe.withIpv4Fields b a).getD 14 0 = 69 := by
    simp only [IcmpProbe.withIpv4Fields, setU16, writeIp]
    rw [getD_setByte_ne _ _ _ _ (by norm_num), getD_setByte_ne _ _ _ _ (by norm_num),
      getD_setByte_ne _ _ _ _ (by norm_num), getD_setByte_ne _ _ _ _ (by norm_num),
      getD_setByte_ne _ _ _ _ (by norm_num), getD_setByte_ne _ _ _ _ (by norm_num),
      getD_setByte_ne _ _ _ _ (by norm_num), getD_setByte_ne _ _ _ _ (by norm_num),
      h14]
  have h3_16 : (IcmpProbe.withIpv4Fields b a).getD 16 0 = 0 := by
    simp only [IcmpProbe.withIpv4Fields, setU16, writeIp]
    rw [getD_setByte_ne _ _ _ _ (by norm_num), getD_setByte_ne _ _ _ _ (by norm_num),
      getD_setByte_ne _ _ _ _ (by norm_num), getD_setByte_ne _ _ _ _ (by norm_num),
      getD_setByte_ne _ _ _ _ (by norm_num), getD_setByte_ne _ _ _ _ (by norm_num),
      getD_setByte_ne _ _ _ _ (by norm_num), getD_setByte_ne _ _ _ _ (by norm_num),
      h16]
  have h3_17 : (IcmpProbe.withIpv4Fields b a).getD 17 0 = 28 := by
    simp only [IcmpProbe.withIpv4Fields, setU16, writeIp]
    rw [getD_setByte_ne _ _ _ _ (by norm_num), getD_setByte_ne _ _ _ _ (by norm_num),
      getD_setByte_ne _ _ _ _ (by norm_num), getD_setByte_ne _ _ _ _ (by norm_num),
      getD_setByte_ne _ _ _ _ (by norm_num), getD_setByte_ne _ _ _ _ (by norm_num),
      getD_setByte_ne _ _ _ _ (by norm_num), getD_setByte_ne _ _ _ _ (by norm_num),
      h17]
  have hOpt : ipv4OptionsLength ((IcmpProbe.withIpv4Fields b a).drop 14) = 0 := by
    unfold ipv4OptionsLength ipv4HeaderLengthField
    rw [getD_drop, h3_14]
  have hTot : ipv4TotalLength ((IcmpProbe.withIpv4Fields b a).drop 14) = 28 := by
    unfold ipv4TotalLength readU16
    rw [getD_drop, getD_drop]
    have e1 : (14 : Nat) + 2 = 16 := by norm_num
    have e2 : (14 : Nat) + (2 + 1) = 17 := by norm_num
    rw [e1, e2, h3_16, h3_17]
  have hPay : (ipv4Payload ((IcmpProbe.withIpv4Fields b a).drop 14)).length = 8 := by
    unfold ipv4Payload ipv4PayloadLength
    rw [hOpt, hTot]
    simp [hb3len]
  unfold IcmpProbe.update_icmp_request_packet
  rw [if_neg (by omega), if_neg (by omega)]
  simp only [hOpt, hPay]
  norm_num

/-- Byte values of the freshly built template, one lemma per position (the
checksum bytes 24 and 25 are excluded; they hold the computed header
checksum). -/
theorem new_byte_0 (conf : EthernetConf) :
    (IcmpProbe.new conf).getD 0 0 = conf.ethernet_info.destination.a % 256 := by
  simp [IcmpProbe.new, ICMP_REQUEST_PACKET_SIZE, ETHERNET_PACKET_MIN_SIZE,
    IPV4_PACKET_MIN_SIZE, ECHO_REQUEST_MIN_SIZE, setU16, setByte, setHighNib,
    setLowNib, writeMac, writeIp, ipv4OptionsLength, ipv4HeaderLengthField,
    List.getD_eq_getElem?_getD, List.getElem?_set, List.getElem?_drop,
    List.getElem?_replicate]

theorem new_byte_1 (conf : EthernetConf) :
    (IcmpProbe.new conf).getD 1 0 = conf.ethernet_info.destination.b % 256 := by
  simp [IcmpProbe.new, ICMP_REQUEST_PACKET_SIZE, ETHERNET_PACKET_MIN_SIZE,
    IPV4_PACKET_MIN_SIZE, ECHO_REQUEST_MIN_SIZE, setU16, setByte, setHighNib,
    setLowNib, writeMac, writeIp, ipv4OptionsLength, ipv4HeaderLengthField,
    List.getD_eq_getElem?_getD, List.getElem?_set, List.getElem?_drop,
    List.getElem?_replicate]

theorem new_byte_2 (conf : EthernetConf) :
    (IcmpProbe.new conf).getD 2 0 = conf.ethernet_info.destination.c % 256 := by
  simp [IcmpProbe.new, ICMP_REQUEST_PACKET_SIZE, ETHERNET_PACKET_MIN_SIZE,
    IPV4_PACKET_MIN_SIZE, ECHO_REQUEST_MIN_SIZE, setU16, setByte, setHighNib,
    setLowNib, writeMac, writeIp, ipv4OptionsLength, ipv4HeaderLengthField,
    List.getD_eq_getElem?_getD, List.getElem?_set, List.getElem?_drop,
    List.getElem?_replicate]

theorem new_byte_3 (conf : EthernetConf) :
    (IcmpProbe.new conf).getD 3 0 = conf.ethernet_info.destination.d % 256 := by
  simp [IcmpProbe.new, ICMP_REQUEST_PACKET_SIZE, ETHERNET_PACKET_MIN_SIZE,
    IPV4_PACKET_MIN_SIZE, ECHO_REQUEST_MIN_SIZE, setU16, setByte, setHighNib,
    setLowNib, writeMac, writeIp, ipv4OptionsLength, ipv4HeaderLengthField,
    List.getD_eq_getElem?_getD, List.getElem?_set, List.getElem?_drop,
    List.getElem?_replicate]

theorem new_byte_4 (conf : EthernetConf) :
    (IcmpProbe.new conf).getD 4 0 = conf.ethernet_info.destination.e % 256 := by
  simp [IcmpProbe.new, ICMP_REQUEST_PACKET_SIZE, ETHERNET_PACKET_MIN_SIZE,
    IPV4_PACKET_MIN_SIZE, ECHO_REQUEST_MIN_SIZE, setU16, setByte, setHighNib,
    setLowNib, writeMac, writeIp, ipv4OptionsLength, ipv4HeaderLengthField,
    List.getD_eq_getElem?_getD, List.getElem?_set, List.getElem?_drop,
    List.getElem?_replicate]

theorem new_byte_5 (conf : EthernetConf) :
    (IcmpProbe.new conf).getD 5 0 = conf.ethernet_info.destination.f % 256 := by
  simp [IcmpProbe.new, ICMP_REQUEST_PACKET_SIZE, ETHERNET_PACKET_MIN_SIZE,
    IPV4_PACKET_MIN_SIZE, ECHO_REQUEST_MIN_SIZE, setU16, setByte, setHighNib,
    setLowNib, writeMac, writeIp, ipv4OptionsLength, ipv4HeaderLengthField,
    List.getD_eq_getElem?_getD, List.getElem?_set, List.getElem?_drop,
    List.getElem?_replicate]

theorem new_byte_6 (conf : EthernetConf) :
    (IcmpProbe.new conf).getD 6 0 = conf.ethernet_info.source.a % 256 := by
  simp [IcmpProbe.new, ICMP_REQUEST_PACKET_SIZE, ETHERNET_PACKET_MIN_SIZE,
    IPV4_PACKET_MIN_SIZE, ECHO_REQUEST_MIN_SIZE, setU16, setByte, setHighNib,
    setLowNib, writeMac, writeIp, ipv4OptionsLength, ipv4HeaderLengthField,
    List.getD_eq_getElem?_getD, List.getElem?_set, List.getElem?_drop,
    List.getElem?_replicate]

theorem new_byte_7 (conf : EthernetConf) :
    (IcmpProbe.new conf).getD 7 0 = conf.ethernet_info.source.b % 256 := by
  simp [IcmpProbe.new, ICMP_REQUEST_PACKET_SIZE, ETHERNET_PACKET_MIN_SIZE,
    IPV4_PACKET_MIN_SIZE, ECHO_REQUEST_MIN_SIZE, setU16, setByte, setHighNib,
    setLowNib, writeMac, writeIp, ipv4OptionsLength, ipv4HeaderLengthField,
    List.getD_eq_getElem?_getD, List.getElem?_set, List.getElem?_drop,
    List.getElem?_replicate]

theorem new_byte_8 (conf : EthernetConf) :
    (IcmpProbe.new conf).getD 8 0 = conf.ethernet_info.source.c % 256 := by
  simp [IcmpProbe.new, ICMP_REQUEST_PACKET_SIZE, ETHERNET_PACKET_MIN_SIZE,
    IPV4_PACKET_MIN_SIZE, ECHO_REQUEST_MIN_SIZE, setU16, setByte, setHighNib,
    setLowNib, writeMac, writeIp, ipv4OptionsLength, ipv4HeaderLengthField,
    List.getD_eq_getElem?_getD, List.getElem?_set, List.getElem?_drop,
    List.getElem?_replicate]

theorem new_byte_9 (conf : EthernetConf) :
    (IcmpProbe.new conf).getD 9 0 = conf.ethernet_info.source.d % 256 := by
  simp [IcmpProbe.new, ICMP_REQUEST_PACKET_SIZE, ETHERNET_PACKET_MIN_SIZE,
    IPV4_PACKET_MIN_SIZE, ECHO_REQUEST_MIN_SIZE, setU16, setByte, setHighNib,
    setLowNib, writeMac, writeIp, ipv4OptionsLength, ipv4HeaderLengthField,
    List.getD_eq_getElem?_getD, List.getElem?_set, List.getElem?_drop,
    List.getElem?_replicate]

theorem new_byte_10 (conf : EthernetConf) :
    (IcmpProbe.new conf).getD 10 0 = conf.ethernet_info.source.e % 256 := by
  simp [IcmpProbe.new, ICMP_REQUEST_PACKET_SIZE, ETHERNET_PACKET_MIN_SIZE,
    IPV4_PACKET_MIN_SIZE, ECHO_REQUEST_MIN_SIZE, setU16, setByte, setHighNib,
    setLowNib, writeMac, writeIp, ipv4OptionsLength, ipv4HeaderLengthField,
    List.getD_eq_getElem?_getD, List.getElem?_set, List.getElem?_drop,
    List.getElem?_replicate]

theorem new_byte_11 (conf : EthernetConf) :
    (IcmpProbe.new conf).getD 11 0 = conf.ethernet_info.source.f % 256 := by
  simp [IcmpProbe.new, ICMP_REQUEST_PACKET_SIZE, ETHERNET_PACKET_MIN_SIZE,
    IPV4_PACKET_MIN_SIZE, ECHO_REQUEST_MIN_SIZE, setU16, setByte, setHighNib,
    setLowNib, writeMac, writeIp, ipv4OptionsLength, ipv4HeaderLengthField,
    List.getD_eq_getElem?_getD, List.getElem?_set, List.getElem?_drop,
    List.getElem?_replicate]

theorem new_byte_12 (conf : EthernetConf) :
    (IcmpProbe.new conf).getD 12 0 = conf.ethernet_info.ethertype / 256 % 256 := by
  simp [IcmpProbe.new, ICMP_REQUEST_PACKET_SIZE, ETHERNET_PACKET_MIN_SIZE,
    IPV4_PACKET_MIN_SIZE, ECHO_REQUEST_MIN_SIZE, setU16, setByte, setHighNib,
    setLowNib, writeMac, writeIp, ipv4OptionsLength, ipv4HeaderLengthField,
    List.getD_eq_getElem?_getD, List.getElem?_set, List.getElem?_drop,
    List.getElem?_replicate]

theorem new_byte_13 (conf : EthernetConf) :
    (IcmpProbe.new conf).getD 13 0 = conf.ethernet_info.ethertype % 256 := by
  simp [IcmpProbe.new, ICMP_REQUEST_PACKET_SIZE, ETHERNET_PACKET_MIN_SIZE,
    IPV4_PACKET_MIN_SIZE, ECHO_REQUEST_MIN_SIZE, setU16, setByte, setHighNib,
    setLowNib, writeMac, writeIp, ipv4OptionsLength, ipv4HeaderLengthField,
    List.getD_eq_getElem?_getD, List.getElem?_set, List.getElem?_drop,
    List.getElem?_replicate]

theorem new_byte_14 (conf : EthernetConf) :
    (IcmpProbe.new conf).getD 14 0 = 69 := by
  simp [IcmpProbe.new, ICMP_REQUEST_PACKET_SIZE, ETHERNET_PACKET_MIN_SIZE,
    IPV4_PACKET_MIN_SIZE, ECHO_REQUEST_MIN_SIZE, setU16, setByte, setHighNib,
    setLowNib, writeMac, writeIp, ipv4OptionsLength, ipv4HeaderLengthField,
    List.getD_eq_getElem?_getD, List.getElem?_set, List.getElem?_drop,
    List.getElem?_replicate]

theorem new_byte_15 (conf : EthernetConf) :
    (IcmpProbe.new conf).getD 15 0 = 0 := by
  simp [IcmpProbe.new, ICMP_REQUEST_PACKET_SIZE, ETHERNET_PACKET_MIN_SIZE,
    IPV4_PACKET_MIN_SIZE, ECHO_REQUEST_MIN_SIZE, setU16, setByte, setHighNib,
    setLowNib, writeMac, writeIp, ipv4OptionsLength, ipv4HeaderLengthField,
    List.getD_eq_getElem?_getD, List.getElem?_set, List.getElem?_drop,
    List.getElem?_replicate]

theorem new_byte_16 (conf : EthernetConf) :
    (IcmpProbe.new conf).getD 16 0 = 0 := by
  simp [IcmpProbe.new, ICMP_REQUEST_PACKET_SIZE, ETHERNET_PACKET_MIN_SIZE,
    IPV4_PACKET_MIN_SIZE, ECHO_REQUEST_MIN_SIZE, setU16, setByte, setHighNib,
    setLowNib, writeMac, writeIp, ipv4OptionsLength, ipv4HeaderLengthField,
    List.getD_eq_getElem?_getD, List.getElem?_set, List.getElem?_drop,
    List.getElem?_replicate]

theorem new_byte_17 (conf : EthernetConf) :
    (IcmpProbe.new conf).getD 17 0 = 28 := by
  simp [IcmpProbe.new, ICMP_REQUEST_PACKET_SIZE, ETHERNET_PACKET_MIN_SIZE,
    IPV4_PACKET_MIN_SIZE, ECHO_REQUEST_MIN_SIZE, setU16, setByte, setHighNib,
    setLowNib, writeMac, writeIp, ipv4OptionsLength, ipv4HeaderLengthField,
    List.getD_eq_getElem?_getD, List.getElem?_set, List.getElem?_drop,
    List.getElem?_replicate]

theorem new_byte_18 (conf : EthernetConf) :
    (IcmpProbe.new conf).getD 18 0 = 0 := by
  simp [IcmpProbe.new, ICMP_REQUEST_PACKET_SIZE, ETHERNET_PACKET_MIN_SIZE,
    IPV4_PACKET_MIN_SIZE, ECHO_REQUEST_MIN_SIZE, setU16, setByte, setHighNib,
    setLowNib, writeMac, writeIp, ipv4OptionsLength, ipv4HeaderLengthField,
    List.getD_eq_getElem?_getD, List.getElem?_set, List.getElem?_drop,
    List.getElem?_replicate]

theorem new_byte_19 (conf : EthernetConf) :
    (IcmpProbe.new conf).getD 19 0 = 0 := by
  simp [IcmpProbe.new, ICMP_REQUEST_PACKET_SIZE, ETHERNET_PACKET_MIN_SIZE,
    IPV4_PACKET_MIN_SIZE, ECHO_REQUEST_MIN_SIZE, setU16, setByte, setHighNib,
    setLowNib, writeMac, writeIp, ipv4OptionsLength, ipv4HeaderLengthField,
    List.getD_eq_getElem?_getD, List.getElem?_set, List.getElem?_drop,
    List.getElem?_replicate]

theorem new_byte_20 (conf : EthernetConf) :
    (IcmpProbe.new conf).getD 20 0 = 0 := by
  simp [IcmpProbe.new, ICMP_REQUEST_PACKET_SIZE, ETHERNET_PACKET_MIN_SIZE,
    IPV4_PACKET_MIN_SIZE, ECHO_REQUEST_MIN_SIZE, setU16, setByte, setHighNib,
    setLowNib, writeMac, writeIp, ipv4OptionsLength, ipv4HeaderLengthField,
    List.getD_eq_getElem?_getD, List.getElem?_set, List.getElem?_drop,
    List.getElem?_replicate]

theorem new_byte_21 (conf : EthernetConf) :
    (IcmpProbe.new conf).getD 21 0 = 0 := by
  simp [IcmpProbe.new, ICMP_REQUEST_PACKET_SIZE, ETHERNET_PACKET_MIN_SIZE,
    IPV4_PACKET_MIN_SIZE, ECHO_REQUEST_MIN_SIZE, setU16, setByte, setHighNib,
    setLowNib, writeMac, writeIp, ipv4OptionsLength, ipv4HeaderLengthField,
    List.getD_eq_getElem?_getD, List.getElem?_set, List.getElem?_drop,
    List.getElem?_replicate]

theorem new_byte_22 (conf : EthernetConf) :
    (IcmpProbe.new conf).getD 22 0 = 101 := by
  simp [IcmpProbe.new, ICMP_REQUEST_PACKET_SIZE, ETHERNET_PACKET_MIN_SIZE,
    IPV4_PACKET_MIN_SIZE, ECHO_REQUEST_MIN_SIZE, setU16, setByte, setHighNib,
    setLowNib, writeMac, writeIp, ipv4OptionsLength, ipv4HeaderLengthField,
    List.getD_eq_getElem?_getD, List.getElem?_set, List.getElem?_drop,
    List.getElem?_replicate]

theorem new_byte_23 (conf : EthernetConf) :
    (IcmpProbe.new conf).getD 23 0 = 1 := by
  simp [IcmpProbe.new, ICMP_REQUEST_PACKET_SIZE, ETHERNET_PACKET_MIN_SIZE,
    IPV4_PACKET_MIN_SIZE, ECHO_REQUEST_MIN_SIZE, setU16, setByte, setHighNib,
    setLowNib, writeMac, writeIp, ipv4OptionsLength, ipv4HeaderLengthField,
    List.getD_eq_getElem?_getD, List.getElem?_set, List.getElem?_drop,
    List.getElem?_replicate]

theorem new_byte_26 (conf : EthernetConf) :
    (IcmpProbe.new conf).getD 26 0 = conf.interface.address.o1 % 256 := by
  simp [IcmpProbe.new, ICMP_REQUEST_PACKET_SIZE, ETHERNET_PACKET_MIN_SIZE,
    IPV4_PACKET_MIN_SIZE, ECHO_REQUEST_MIN_SIZE, setU16, setByte, setHighNib,
    setLowNib, writeMac, writeIp, ipv4OptionsLength, ipv4HeaderLengthField,
    List.getD_eq_getElem?_getD, List.getElem?_set, List.getElem?_drop,
    List.getElem?_replicate]

theorem new_byte_27 (conf : EthernetConf) :
    (IcmpProbe.new conf).getD 27 0 = conf.interface.address.o2 % 256 := by
  simp [IcmpProbe.new, ICMP_REQUEST_PACKET_SIZE, ETHERNET_PACKET_MIN_SIZE,
    IPV4_PACKET_MIN_SIZE, ECHO_REQUEST_MIN_SIZE, setU16, setByte, setHighNib,
    setLowNib, writeMac, writeIp, ipv4OptionsLength, ipv4HeaderLengthField,
    List.getD_eq_getElem?_getD, List.getElem?_set, List.getElem?_drop,
    List.getElem?_replicate]

theorem new_byte_28 (conf : EthernetConf) :
    (IcmpProbe.new conf).getD 28 0 = conf.interface.address.o3 % 256 := by
  simp [IcmpProbe.new, ICMP_REQUEST_PACKET_SIZE, ETHERNET_PACKET_MIN_SIZE,
    IPV4_PACKET_MIN_SIZE, ECHO_REQUEST_MIN_SIZE, setU16, setByte, setHighNib,
    setLowNib, writeMac, writeIp, ipv4OptionsLength, ipv4HeaderLengthField,
    List.getD_eq_getElem?_getD, List.getElem?_set, List.getElem?_drop,
    List.getElem?_replicate]

theorem new_byte_29 (conf : EthernetConf) :
    (IcmpProbe.new conf).getD 29 0 = conf.interface.address.o4 % 256 := by
  simp [IcmpProbe.new, ICMP_REQUEST_PACKET_SIZE, ETHERNET_PACKET_MIN_SIZE,
    IPV4_PACKET_MIN_SIZE, ECHO_REQUEST_MIN_SIZE, setU16, setByte, setHighNib,
    setLowNib, writeMac, writeIp, ipv4OptionsLength, ipv4HeaderLengthField,
    List.getD_eq_getElem?_getD, List.getElem?_set, List.getElem?_drop,
    List.getElem?_replicate]

theorem new_byte_30 (conf : EthernetConf) :
    (IcmpProbe.new conf).getD 30 0 = 0 := by
  simp [IcmpProbe.new, ICMP_REQUEST_PACKET_SIZE, ETHERNET_PACKET_MIN_SIZE,
    IPV4_PACKET_MIN_SIZE, ECHO_REQUEST_MIN_SIZE, setU16, setByte, setHighNib,
    setLowNib, writeMac, writeIp, ipv4OptionsLength, ipv4HeaderLengthField,
    List.getD_eq_getElem?_getD, List.getElem?_set, List.getElem?_drop,
    List.getElem?_replicate]

theorem new_byte_31 (conf : EthernetConf) :
    (IcmpProbe.new conf).getD 31 0 = 0 := by
  simp [IcmpProbe.new, ICMP_REQUEST_PACKET_SIZE, ETHERNET_PACKET_MIN_SIZE,
    IPV4_PACKET_MIN_SIZE, ECHO_REQUEST_MIN_SIZE, setU16, setByte, setHighNib,
    setLowNib, writeMac, writeIp, ipv4OptionsLength, ipv4HeaderLengthField,
    List.getD_eq_getElem?_getD, List.getElem?_set, List.getElem?_drop,
    List.getElem?_replicate]

theorem new_byte_32 (conf : EthernetConf) :
    (IcmpProbe.new conf).getD 32 0 = 0 := by
  simp [IcmpProbe.new, ICMP_REQUEST_PACKET_SIZE, ETHERNET_PACKET_MIN_SIZE,
    IPV4_PACKET_MIN_SIZE, ECHO_REQUEST_MIN_SIZE, setU16, setByte, setHighNib,
    setLowNib, writeMac, writeIp, ipv4OptionsLength, ipv4HeaderLengthField,
    List.getD_eq_getElem?_getD, List.getElem?_set, List.getElem?_drop,
    List.getElem?_replicate]

theorem new_byte_33 (conf : EthernetConf) :
    (IcmpProbe.new conf).getD 33 0 = 0 := by
  simp [IcmpProbe.new, ICMP_REQUEST_PACKET_SIZE, ETHERNET_PACKET_MIN_SIZE,
    IPV4_PACKET_MIN_SIZE, ECHO_REQUEST_MIN_SIZE, setU16, setByte, setHighNib,
    setLowNib, writeMac, writeIp, ipv4OptionsLength, ipv4HeaderLengthField,
    List.getD_eq_getElem?_getD, List.getElem?_set, List.getElem?_drop,
    List.getElem?_replicate]

theorem new_byte_34 (conf : EthernetConf) :
    (IcmpProbe.new conf).getD 34 0 = 8 := by
  simp [IcmpProbe.new, ICMP_REQUEST_PACKET_SIZE, ETHERNET_PACKET_MIN_SIZE,
    IPV4_PACKET_MIN_SIZE, ECHO_REQUEST_MIN_SIZE, setU16, setByte, setHighNib,
    setLowNib, writeMac, writeIp, ipv4OptionsLength, ipv4HeaderLengthField,
    List.getD_eq_getElem?_getD, List.getElem?_set, List.getElem?_drop,
    List.getElem?_replicate]

theorem new_byte_35 (conf : EthernetConf) :
    (IcmpProbe.new conf).getD 35 0 = 0 := by
  simp [IcmpProbe.new, ICMP_REQUEST_PACKET_SIZE, ETHERNET_PACKET_MIN_SIZE,
    IPV4_PACKET_MIN_SIZE, ECHO_REQUEST_MIN_SIZE, setU16, setByte, setHighNib,
    setLowNib, writeMac, writeIp, ipv4OptionsLength, ipv4HeaderLengthField,
    List.getD_eq_getElem?_getD, List.getElem?_set, List.getElem?_drop,
    List.getElem?_replicate]

theorem new_byte_36 (conf : EthernetConf) :
    (IcmpProbe.new conf).getD 36 0 = 0 := by
  simp [IcmpProbe.new, ICMP_REQUEST_PACKET_SIZE, ETHERNET_PACKET_MIN_SIZE,
    IPV4_PACKET_MIN_SIZE, ECHO_REQUEST_MIN_SIZE, setU16, setByte, setHighNib,
    setLowNib, writeMac, writeIp, ipv4OptionsLength, ipv4HeaderLengthField,
    List.getD_eq_getElem?_getD, List.getElem?_set, List.getElem?_drop,
    List.getElem?_replicate]

theorem new_byte_37 (conf : EthernetConf) :
    (IcmpProbe.new conf).getD 37 0 = 0 := by
  simp [IcmpProbe.new, ICMP_REQUEST_PACKET_SIZE, ETHERNET_PACKET_MIN_SIZE,
    IPV4_PACKET_MIN_SIZE, ECHO_REQUEST_MIN_SIZE, setU16, setByte, setHighNib,
    setLowNib, writeMac, writeIp, ipv4OptionsLength, ipv4HeaderLengthField,
    List.getD_eq_getElem?_getD, List.getElem?_set, List.getElem?_drop,
    List.getElem?_replicate]

theorem new_byte_38 (conf : EthernetConf) :
    (IcmpProbe.new conf).getD 38 0 = 0 := by
  simp [IcmpProbe.new, ICMP_REQUEST_PACKET_SIZE, ETHERNET_PACKET_MIN_SIZE,
    IPV4_PACKET_MIN_SIZE, ECHO_REQUEST_MIN_SIZE, setU16, setByte, setHighNib,
    setLowNib, writeMac, writeIp, ipv4OptionsLength, ipv4HeaderLengthField,
    List.getD_eq_getElem?_getD, List.getElem?_set, List.getElem?_drop,
    List.getElem?_replicate]

theorem new_byte_39 (conf : EthernetConf) :
    (IcmpProbe.new conf).getD 39 0 = 42 := by
  simp [IcmpProbe.new, ICMP_REQUEST_PACKET_SIZE, ETHERNET_PACKET_MIN_SIZE,
    IPV4_PACKET_MIN_SIZE, ECHO_REQUEST_MIN_SIZE, setU16, setByte, setHighNib,
    setLowNib, writeMac, writeIp, ipv4OptionsLength, ipv4HeaderLengthField,
    List.getD_eq_getElem?_getD, List.getElem?_set, List.getElem?_drop,
    List.getElem?_replicate]

theorem new_byte_40 (conf : EthernetConf) :
    (IcmpProbe.new conf).getD 40 0 = 0 := by
  simp [IcmpProbe.new, ICMP_REQUEST_PACKET_SIZE, ETHERNET_PACKET_MIN_SIZE,
    IPV4_PACKET_MIN_SIZE, ECHO_REQUEST_MIN_SIZE, setU16, setByte, setHighNib,
    setLowNib, writeMac, writeIp, ipv4OptionsLength, ipv4HeaderLengthField,
    List.getD_eq_getElem?_getD, List.getElem?_set, List.getElem?_drop,
    List.getElem?_replicate]

theorem new_byte_41 (conf : EthernetConf) :
    (IcmpProbe.new conf).getD 41 0 = 0 := by
  simp [IcmpProbe.new, ICMP_REQUEST_PACKET_SIZE, ETHERNET_PACKET_MIN_SIZE,
    IPV4_PACKET_MIN_SIZE, ECHO_REQUEST_MIN_SIZE, setU16, setByte, setHighNib,
    setLowNib, writeMac, writeIp, ipv4OptionsLength, ipv4HeaderLengthField,
    List.getD_eq_getElem?_getD, List.getElem?_set, List.getElem?_drop,
    List.getElem?_replicate]

/-- Bytes outside the ten mutable positions are untouched by the update
stages. -/
theorem updated_getD_untouched (b : List Nat) (a : Ipv4Addr) (s i : Nat)
    (h : ¬ mutableIdx i) :
    (IcmpProbe.withIcmpFields (IcmpProbe.withIpv4Fields b a) 34 8 s).getD i 0 =
      b.getD i 0 := by
  by_cases h42 : i < 42
  · interval_cases i <;>
      first
        | exact absurd (by decide) h
        | simp [IcmpProbe.withIcmpFields, IcmpProbe.withIpv4Fields, setU16,
            setByte, writeIp, List.getD_eq_getElem?_getD, List.getElem?_set]
  · push_neg at h42
    simp only [IcmpProbe.withIcmpFields, IcmpProbe.withIpv4Fields, setU16,
      writeIp]
    rw [getD_setByte_ne _ _ _ _ (by omega), getD_setByte_ne _ _ _ _ (by omega),
      getD_setByte_ne _ _ _ _ (by omega), getD_setByte_ne _ _ _ _ (by omega),
      getD_setByte_ne _ _ _ _ (by omega), getD_setByte_ne _ _ _ _ (by omega),
      getD_setByte_ne _ _ _ _ (by omega), getD_setByte_ne _ _ _ _ (by omega),
      getD_setByte_ne _ _ _ _ (by omega), getD_setByte_ne _ _ _ _ (by omega),
      getD_setByte_ne _ _ _ _ (by omega), getD_setByte_ne _ _ _ _ (by omega),
      getD_setByte_ne _ _ _ _ (by omega), getD_setByte_ne _ _ _ _ (by omega)]

theorem length_updated (b : List Nat) (a : Ipv4Addr) (s : Nat) :
    (IcmpProbe.withIcmpFields (IcmpProbe.withIpv4Fields b a) 34 8 s).length =
      b.length := by
  simp [IcmpProbe.withIcmpFields, IcmpProbe.withIpv4Fields]

theorem updated_getD_30 (b : List Nat) (a : Ipv4Addr) (s : Nat)
    (hlen : b.length = 42) :
    (IcmpProbe.withIcmpFields (IcmpProbe.withIpv4Fields b a) 34 8 s).getD 30 0 =
      a.o1 % 256 := by
  simp [IcmpProbe.withIcmpFields, IcmpProbe.withIpv4Fields, setU16, setByte,
    writeIp, List.getD_eq_getElem?_getD, List.getElem?_set, hlen]

theorem updated_getD_31 (b : List Nat) (a : Ipv4Addr) (s : Nat)
    (hlen : b.length = 42) :
    (IcmpProbe.withIcmpFields (IcmpProbe.withIpv4Fields b a) 34 8 s).getD 31 0 =
      a.o2 % 256 := by
  simp [IcmpProbe.withIcmpFields, IcmpProbe.withIpv4Fields, setU16, setByte,
    writeIp, List.getD_eq_getElem?_getD, List.getElem?_set, hlen]

theorem updated_getD_32 (b : List Nat) (a : Ipv4Addr) (s : Nat)
    (hlen : b.length = 42) :
    (IcmpProbe.withIcmpFields (IcmpProbe.withIpv4Fields b a) 34 8 s).getD 32 0 =
      a.o3 % 256 := by
  simp [IcmpProbe.withIcmpFields, IcmpProbe.withIpv4Fields, setU16, setByte,
    writeIp, List.getD_eq_getElem?_getD, List.getElem?_set, hlen]

theorem updated_getD_33 (b : List Nat) (a : Ipv4Addr) (s : Nat)
    (hlen : b.length = 42) :
    (IcmpProbe.withIcmpFields (IcmpProbe.withIpv4Fields b a) 34 8 s).getD 33 0 =
      a.o4 % 256 := by
  simp [IcmpProbe.withIcmpFields, IcmpProbe.withIpv4Fields, setU16, setByte,
    writeIp, List.getD_eq_getElem?_getD, List.getElem?_set, hlen]

theorem updated_getD_40 (b : List Nat) (a : Ipv4Addr) (s : Nat)
    (hlen : b.length = 42) :
    (IcmpProbe.withIcmpFields (IcmpProbe.withIpv4Fields b a) 34 8 s).getD 40 0 =
      s / 256 % 256 := by
  simp [IcmpProbe.withIcmpFields, IcmpProbe.withIpv4Fields, setU16, setByte,
    writeIp, List.getD_eq_getElem?_getD, List.getElem?_set, hlen]

theorem updated_getD_41 (b : List Nat) (a : Ipv4Addr) (s : Nat)
    (hlen : b.length = 42) :
    (IcmpProbe.withIcmpFields (IcmpProbe.withIpv4Fields b a) 34 8 s).getD 41 0 =
      s % 256 := by
  simp [IcmpProbe.withIcmpFields, IcmpProbe.withIpv4Fields, setU16, setByte,
    writeIp, List.getD_eq_getElem?_getD, List.getElem?_set, hlen]

theorem update_new (conf : EthernetConf) (a : Ipv4Addr) (s : Nat) :
    IcmpProbe.update_icmp_request_packet (IcmpProbe.new conf) a s =
      some (IcmpProbe.withIcmpFields
        (IcmpProbe.withIpv4Fields (IcmpProbe.new conf) a) 34 8 s) :=
  update_shape _ _ _ (length_new conf) (new_byte_14 conf) (new_byte_16 conf)
    (new_byte_17 conf)

theorem frameBytes_def (conf : EthernetConf) (a : Ipv4Addr) (s : Nat) :
    IcmpProbe.frameBytes conf a s =
      IcmpProbe.withIcmpFields
        (IcmpProbe.withIpv4Fields (IcmpProbe.new conf) a) 34 8 s := by
  unfold IcmpProbe.frameBytes
  rw [update_new]
  simp only [Option.getD_some]

/-- The buffers a pool slot can hold: the freshly built template, and the
result of any sequence of per-target updates applied to it. -/
inductive ReachableSlot (conf : EthernetConf) : List Nat → Prop where
  | init : ReachableSlot conf (IcmpProbe.new conf)
  | step {b b' : List Nat} {a : Ipv4Addr} {s : Nat} :
      ReachableSlot conf b →
      IcmpProbe.update_icmp_request_packet b a s = some b' →
      ReachableSlot conf b'

/-- Every reachable slot buffer is 42 bytes long and agrees with the
template on every byte outside the mutable positions. -/
theorem reachable_inv (conf : EthernetConf) (b : List Nat)
    (h : ReachableSlot conf b) :
    b.length = 42 ∧
      ∀ i, ¬ mutableIdx i → b.getD i 0 = (IcmpProbe.new conf).getD i 0 := by
  induction h with
  | init => exact ⟨length_new conf, fun i _ => rfl⟩
  | @step b0 b' a s hb hupd ih =>
    obtain ⟨hlen, hfix⟩ := ih
    have h14 := (hfix 14 (by decide)).trans (new_byte_14 conf)
    have h16 := (hfix 16 (by decide)).trans (new_byte_16 conf)
    have h17 := (hfix 17 (by decide)).trans (new_byte_17 conf)
    rw [update_shape b0 a s hlen h14 h16 h17] at hupd
    injection hupd with hb'
    subst hb'
    refine ⟨(length_updated b0 a s).trans hlen, fun i hi => ?_⟩
    exact (updated_getD_untouched b0 a s i hi).trans (hfix i hi)

/-- A sample Ethernet configuration used by the concrete witnesses. -/
def sampleConf : EthernetConf :=
  ⟨⟨⟨2, 0, 0, 0, 0, 1⟩, ⟨2, 0, 0, 0, 0, 2⟩, 2048⟩, ⟨⟨192, 168, 1, 7⟩⟩⟩

/-- C7: a per-target update applied to any slot buffer leaves every byte
outside the four per-attempt-mutable fields (destination IP, IPv4 checksum,
ICMP sequence number, ICMP checksum) unchanged, and each such byte still
holds the value set at construction. -/
theorem update_preserves_template_fields (conf : EthernetConf)
    (b b' : List Nat) (a : Ipv4Addr) (s : Nat)
    (hreach : ReachableSlot conf b)
    (hupd : IcmpProbe.update_icmp_request_packet b a s = some b')
    (i : Nat) (hi : ¬ mutableIdx i) :
    b'.getD i 0 = b.getD i 0 ∧
      b'.getD i 0 = (IcmpProbe.new conf).getD i 0 := by
  obtain ⟨hlen, hfix⟩ := reachable_inv conf b hreach
  have h14 := (hfix 14 (by decide)).trans (new_byte_14 conf)
  have h16 := (hfix 16 (by decide)).trans (new_byte_16 conf)
  have h17 := (hfix 17 (by decide)).trans (new_byte_17 conf)
  rw [update_shape b a s hlen h14 h16 h17] at hupd
  injection hupd with hb'
  subst hb'
  have h1 := updated_getD_untouched b a s i hi
  exact ⟨h1, h1.trans (hfix i hi)⟩

/-- Closed instance of C7 at a concrete configuration, target and sequence
number: the TTL byte (position 22) survives the update with its template
value. -/
theorem update_preserves_template_fields_witness :
    ReachableSlot sampleConf (IcmpProbe.new sampleConf) ∧
      ¬ mutableIdx 22 ∧
      (IcmpProbe.frameBytes sampleConf ⟨8, 8, 8, 8⟩ 5).getD 22 0 =
        (IcmpProbe.new sampleConf).getD 22 0 := by
  refine ⟨.init, by decide, ?_⟩
  have h := update_preserves_template_fields sampleConf
    (IcmpProbe.new sampleConf) (IcmpProbe.frameBytes sampleConf ⟨8, 8, 8, 8⟩ 5)
    ⟨8, 8, 8, 8⟩ 5 .init
    (by rw [update_new, frameBytes_def]) 22 (by decide)
  exact h.2

theorem u16_roundtrip (v : Nat) (h : v < 65536) :
    v / 256 % 256 * 256 + v % 256 = v := by
  omega

/-- The byte-exact wire layout required of every frame handed to the send
call: Ethernet destination MAC, source MAC and ethertype from the
configuration, IPv4 version 4, header length 5, TTL 101, protocol 1 and
total length 28, and an ICMP echo request with type 8, code 0,
identifier 42 and the per-attempt sequence number. -/
def WireLayout (conf : EthernetConf) (s : Nat) (b : List Nat) : Prop :=
  b.length = ICMP_REQUEST_PACKET_SIZE ∧
  b.getD 0 0 = conf.ethernet_info.destination.a ∧
  b.getD 1 0 = conf.ethernet_info.destination.b ∧
  b.getD 2 0 = conf.ethernet_info.destination.c ∧
  b.getD 3 0 = conf.ethernet_info.destination.d ∧
  b.getD 4 0 = conf.ethernet_info.destination.e ∧
  b.getD 5 0 = conf.ethernet_info.destination.f ∧
  b.getD 6 0 = conf.ethernet_info.source.a ∧
  b.getD 7 0 = conf.ethernet_info.source.b ∧
  b.getD 8 0 = conf.ethernet_info.source.c ∧
  b.getD 9 0 = conf.ethernet_info.source.d ∧
  b.getD 10 0 = conf.ethernet_info.source.e ∧
  b.getD 11 0 = conf.ethernet_info.source.f ∧
  readU16 b 12 = conf.ethernet_info.ethertype ∧
  b.getD 14 0 / 16 = 4 ∧
  b.getD 14 0 % 16 = 5 ∧
  b.getD 22 0 = 101 ∧
  b.getD 23 0 = 1 ∧
  readU16 b 16 = IPV4_PACKET_MIN_SIZE + ECHO_REQUEST_MIN_SIZE ∧
  b.getD 34 0 = 8 ∧
  b.getD 35 0 = 0 ∧
  readU16 b 38 = 42 ∧
  readU16 b 40 = s

/-- C4: every frame produced for sending (any per-target update of a slot
buffer) has the exact wire layout of `WireLayout`: Ethernet header from the
configuration, IPv4 header with version 4, IHL 5, TTL 101, protocol ICMP,
total length 20 + 8, and an ICMP echo request with type 8, code 0,
identifier 42 and the per-attempt sequence number. -/
theorem frame_wire_layout (conf : EthernetConf) (b b' : List Nat)
    (a : Ipv4Addr) (s : Nat)
    (hreach : ReachableSlot conf b)
    (hupd : IcmpProbe.update_icmp_request_packet b a s = some b')
    (hconf : conf.Valid) (hs : s < 65536) :
    WireLayout conf s b' := by
  obtain ⟨hlen, hfix⟩ := reachable_inv conf b hreach
  have h14 := (hfix 14 (by decide)).trans (new_byte_14 conf)
  have h16 := (hfix 16 (by decide)).trans (new_byte_16 conf)
  have h17 := (hfix 17 (by decide)).trans (new_byte_17 conf)
  rw [update_shape b a s hlen h14 h16 h17] at hupd
  injection hupd with hb'
  subst hb'
  obtain ⟨⟨hsa, hsb, hsc, hsd, hse, hsf⟩, ⟨hda, hdb, hdc, hdd, hde, hdf⟩,
    het, _⟩ := hconf
  have get := fun (i : Nat) (hi : ¬ mutableIdx i) =>
    (updated_getD_untouched b a s i hi).trans (hfix i hi)
  refine ⟨(length_updated b a s).trans hlen, ?_, ?_, ?_, ?_, ?_, ?_, ?_, ?_,
    ?_, ?_, ?_, ?_, ?_, ?_, ?_, ?_, ?_, ?_, ?_, ?_, ?_, ?_⟩
  · rw [get 0 (by decide), new_byte_0, Nat.mod_eq_of_lt hda]
  · rw [get 1 (by decide), new_byte_1, Nat.mod_eq_of_lt hdb]
  · rw [get 2 (by decide), new_byte_2, Nat.mod_eq_of_lt hdc]
  · rw [get 3 (by decide), new_byte_3, Nat.mod_eq_of_lt hdd]
  · rw [get 4 (by decide), new_byte_4, Nat.mod_eq_of_lt hde]
  · rw [get 5 (by decide), new_byte_5, Nat.mod_eq_of_lt hdf]
  · rw [get 6 (by decide), new_byte_6, Nat.mod_eq_of_lt hsa]
  · rw [get 7 (by decide), new_byte_7, Nat.mod_eq_of_lt hsb]
  · rw [get 8 (by decide), new_byte_8, Nat.mod_eq_of_lt hsc]
  · rw [get 9 (by decide), new_byte_9, Nat.mod_eq_of_lt hsd]
  · rw [get 10 (by decide), new_byte_10, Nat.mod_eq_of_lt hse]
  · rw [get 11 (by decide), new_byte_11, Nat.mod_eq_of_lt hsf]
  · unfold readU16
    rw [get 12 (by decide), new_byte_12, get 13 (by decide), new_byte_13]
    exact u16_roundtrip _ het
  · rw [get 14 (by decide), new_byte_14]
  · rw [get 14 (by decide), new_byte_14]
  · rw [get 22 (by decide), new_byte_22]
  · rw [get 23 (by decide), new_byte_23]
  · unfold readU16
    rw [get 16 (by decide), new_byte_16, get 17 (by decide), new_byte_17]
    norm_num [IPV4_PACKET_MIN_SIZE, ECHO_REQUEST_MIN_SIZE]
  · rw [get 34 (by decide), new_byte_34]
  · rw [get 35 (by decide), new_byte_35]
  · unfold readU16
    rw [get 38 (by decide), new_byte_38, get 39 (by decide), new_byte_39]
  · unfold readU16
    rw [updated_getD_40 b a s hlen, updated_getD_41 b a s hlen]
    exact u16_roundtrip _ hs

/-- Closed instance of C4: the frame built from the sample configuration for
target 8.8.8.8 with sequence number 7 has the full wire layout. -/
theorem frame_wire_layout_witness :
    ReachableSlot sampleConf (IcmpProbe.new sampleConf) ∧
      EthernetConf.Valid sampleConf ∧ 7 < 65536 ∧
      WireLayout sampleConf 7 (IcmpProbe.frameBytes sampleConf ⟨8, 8, 8, 8⟩ 7) := by
  refine ⟨.init, by decide, by decide, ?_⟩
  exact frame_wire_layout sampleConf (IcmpProbe.new sampleConf) _ ⟨8, 8, 8, 8⟩ 7
    .init (by rw [update_new, frameBytes_def]) (by decide) (by decide)

/-- C1: as written in the source, `IcmpProbe::many` ignores its count and
returns `Ok` of an empty vector, so no count of probe slots is ever built;
evaluating the pool constructor at count 100 yields zero slots. -/
theorem many_returns_no_probes : IcmpProbe.many 100 = some [] := rfl

/-- C6: on a buffer too short for the Ethernet layer (13 bytes), the
per-target update panics through `expect` (modelled `none`) instead of
returning a typed recoverable error; the source has no `ProtocolError`
variant and `update_buffer` wraps the call in an unconditional `Ok`. -/
theorem update_panics_on_short_buffer :
    IcmpProbe.update_icmp_request_packet (List.replicate 13 0)
      ⟨10, 0, 0, 1⟩ 0 = none := rfl

/-- C9: a parsed target passes the validation in `main` exactly when its
count lies in [1, 10] and its interval lies in [1, 1000]; otherwise a
configuration error is raised. -/
theorem target_range_check_iff (t : Target) :
    checkTarget t = Except.ok () ↔
      (1 ≤ t.count ∧ t.count ≤ 10 ∧ 1 ≤ t.interval ∧ t.interval ≤ 1000) := by
  unfold checkTarget
  split_ifs <;> simp <;> omega

/-- A buffer accepted by `is_expected_packet` satisfies every gate the
function checks: expected source, protocol ICMP, ICMP type and code of an
echo reply, and the expected sequence number at the derived offset. -/
theorem accepted_implies (buf : List Nat) (addr : Ipv4Addr) (seq : Nat)
    (h : is_expected_packet buf addr seq = some true) :
    ipv4SourceOf buf = addr ∧ ipv4ProtocolOf buf = 1 ∧ icmpTypeOf buf = 0 ∧
      icmpCodeOf buf = 0 ∧ replySeqOf buf = seq := by
  unfold is_expected_packet at h
  split_ifs at h with h1 h2 h3 h4 h5 h6 h7 h8 <;> try simp at h
  exact ⟨not_ne_iff.mp h2, not_ne_iff.mp h3, h5.1, h5.2, h⟩

/-- C5: reply validation produces an output only when the next-level
protocol is ICMP, the ICMP type and code are those of an echo reply
(`(0, 0)`), the source matches the expected target and the sequence number
matches the attempt; contrapositively, a buffer with the wrong protocol,
wrong type or code pair, or a matching source with a different sequence
number is rejected and never resolves the attempt. -/
theorem validation_rejects (buf : List Nat) (tp : TargetParams)
    (out : IcmpOutput)
    (h : IcmpProbe.validate_response buf tp = some (some out)) :
    ipv4ProtocolOf buf = 1 ∧ icmpTypeOf buf = 0 ∧ icmpCodeOf buf = 0 ∧
      ipv4SourceOf buf = tp.addr ∧ replySeqOf buf = tp.seq := by
  unfold IcmpProbe.validate_response at h
  rcases he : is_expected_packet buf tp.addr tp.seq with _ | b
  · rw [he] at h
    exact absurd h (by simp)
  · rw [he] at h
    cases b
    · exact absurd h (by simp)
    · have hc := accepted_implies buf tp.addr tp.seq he
      exact ⟨hc.2.1, hc.2.2.1, hc.2.2.2.1, hc.1, hc.2.2.2.2⟩

/-- A well-formed 28-byte echo reply from 9.9.9.9 with sequence number 11,
used as the concrete accepted buffer of the C5 witness. -/
def replyBufA : List Nat :=
  [69, 0, 0, 28, 0, 0, 0, 0, 64, 1, 0, 0, 9, 9, 9, 9, 10, 0, 0, 1,
   0, 0, 0, 0, 0, 5, 0, 11]

/-- Closed instance of C5: the sample reply buffer is accepted, and every
checked field has the accepted value. -/
theorem validation_rejects_witness :
    IcmpProbe.validate_response replyBufA ⟨⟨9, 9, 9, 9⟩, 11⟩ =
        some (some ⟨⟩) ∧
      (ipv4ProtocolOf replyBufA = 1 ∧ icmpTypeOf replyBufA = 0 ∧
        icmpCodeOf replyBufA = 0 ∧
        ipv4SourceOf replyBufA = (⟨9, 9, 9, 9⟩ : Ipv4Addr) ∧
        replySeqOf replyBufA = 11) :=
  ⟨rfl, validation_rejects replyBufA ⟨⟨9, 9, 9, 9⟩, 11⟩ ⟨⟩ rfl⟩

/-- C8: on every accepted buffer, the sequence number is the big-endian
word at offset 6 of the slice starting at the derived header length
`total_length - payload_length`, exactly as the spec describes the
computation. -/
theorem header_len_from_total_minus_payload (buf : List Nat)
    (addr : Ipv4Addr) (seq : Nat)
    (h : is_expected_packet buf addr seq = some true) :
    readU16 (buf.drop (ipv4TotalLength buf - (ipv4Payload buf).length)) 6 =
      seq :=
  (accepted_implies buf addr seq h).2.2.2.2

/-- A 30-byte buffer (28-byte echo reply from 7.7.7.7 with sequence 3, plus
two trailing bytes), used as the concrete buffer of the C8 witness. -/
def replyBufB : List Nat :=
  [69, 0, 0, 28, 0, 0, 0, 0, 64, 1, 0, 0, 7, 7, 7, 7, 10, 0, 0, 2,
   0, 0, 0, 0, 0, 9, 0, 3, 170, 187]

/-- Closed instance of C8: the sample buffer is accepted and its sequence
number is read at the derived header length. -/
theorem header_len_from_total_minus_payload_witness :
    is_expected_packet replyBufB ⟨7, 7, 7, 7⟩ 3 = some true ∧
      readU16 (replyBufB.drop
        (ipv4TotalLength replyBufB - (ipv4Payload replyBufB).length)) 6 = 3 :=
  ⟨rfl, header_len_from_total_minus_payload replyBufB ⟨7, 7, 7, 7⟩ 3 rfl⟩

/-- C10 counterexample: on the empty buffer, reply validation does not
return a `Some`/`None` result; it panics in `Ipv4Packet::new(..).expect`,
modelled as `none`, refuting the claim that validation is total on every
input buffer. -/
theorem validation_panics_counterexample :
    (is_expected_packet [] ⟨8, 8, 8, 8⟩ 0).isSome = false := rfl

/-- The parse obligations under which every `expect`, subtraction and slice
inside `is_expected_packet` is in range: the buffer holds an IPv4 header,
and on the path where the source, protocol, type and code gates pass, the
payload holds an ICMP header and the derived header length leaves at least
an echo reply in range. -/
def parseSafe (buf : List Nat) (addr : Ipv4Addr) : Prop :=
  20 ≤ buf.length ∧
  (ipv4SourceOf buf = addr → ipv4ProtocolOf buf = 1 →
    (4 ≤ (ipv4Payload buf).length ∧
      (icmpTypeOf buf = 0 ∧ icmpCodeOf buf = 0 →
        ((ipv4Payload buf).length ≤ ipv4TotalLength buf ∧
          replyHeaderLen buf ≤ buf.length ∧
          8 ≤ (buf.drop (replyHeaderLen buf)).length))))

instance (buf : List Nat) (addr : Ipv4Addr) : Decidable (parseSafe buf addr) := by
  unfold parseSafe; infer_instance

/-- C10 amended: reply validation returns a `Some`/`None` result (never
panics) on every buffer satisfying the parse obligations of `parseSafe`;
on other buffers, such as the empty buffer, it fails by panic. -/
theorem validation_total_amended (buf : List Nat) (addr : Ipv4Addr)
    (seq : Nat) (h : parseSafe buf addr) :
    (is_expected_packet buf addr seq).isSome = true := by
  obtain ⟨hl, hrest⟩ := h
  unfold is_expected_packet
  split_ifs with g1 g2 g3 g4 g5 g6 g7 g8 <;> try rfl
  · exact absurd g1 (by omega)
  · have hsrc := not_ne_iff.mp g2
    have hproto := not_ne_iff.mp g3
    exact absurd g4 (by have := (hrest hsrc hproto).1; omega)
  · have hsrc := not_ne_iff.mp g2
    have hproto := not_ne_iff.mp g3
    have htc := g5
    exact absurd g6 (by have := ((hrest hsrc hproto).2 htc).1; omega)
  · have hsrc := not_ne_iff.mp g2
    have hproto := not_ne_iff.mp g3
    have htc := g5
    exact absurd g7 (by have := ((hrest hsrc hproto).2 htc).2.1; omega)
  · have hsrc := not_ne_iff.mp g2
    have hproto := not_ne_iff.mp g3
    have htc := g5
    exact absurd g8 (by have := ((hrest hsrc hproto).2 htc).2.2; omega)

/-- A 20-byte IPv4 header carrying protocol TCP (6), used by the C10
witness: validation rejects it without panicking. -/
def replyBufC : List Nat :=
  [69, 0, 0, 20, 0, 0, 0, 0, 64, 6, 0, 0, 1, 2, 3, 4, 5, 6, 7, 8]

/-- Closed instance of the amended C10: the sample non-ICMP buffer meets the
parse obligations and validation returns a result on it. -/
theorem validation_total_amended_witness :
    parseSafe replyBufC ⟨1, 2, 3, 4⟩ ∧
      (is_expected_packet replyBufC ⟨1, 2, 3, 4⟩ 0).isSome = true :=
  ⟨by decide, validation_total_amended replyBufC ⟨1, 2, 3, 4⟩ 0 (by decide)⟩

theorem getD_set_ne (l : List Nat) (i j v : Nat) (h : i ≠ j) :
    (l.set i v).getD j 0 = l.getD j 0 := by
  simp [List.getD_eq_getElem?_getD, List.getElem?_set_ne h]

theorem getD_set_eq (l : List Nat) (i v : Nat) (h : i < l.length) :
    (l.set i v).getD i 0 = v := by
  simp [List.getD_eq_getElem?_getD, List.getElem?_set_self h]

/-- The mutation applied to a request frame to fake a reply in the
round-trip property: flip the ICMP type byte (offset 20 of the IPv4 packet)
from EchoRequest to EchoReply. -/
def withEchoReplyType (l : List Nat) : List Nat :=
  l.set 20 0

/-- The second mutation the round trip needs: overwrite the IPv4 source
address field (offset 12) with the probed address, as the reply of a real
target would carry it. -/
def withSourceAddr (l : List Nat) (a : Ipv4Addr) : List Nat :=
  writeIp l 12 a

theorem getD_mutated_untouched (l : List Nat) (a : Ipv4Addr) (j : Nat)
    (p1 : 12 ≠ j) (p2 : 13 ≠ j) (p3 : 14 ≠ j) (p4 : 15 ≠ j) (p5 : 20 ≠ j) :
    (withSourceAddr (withEchoReplyType l) a).getD j 0 = l.getD j 0 := by
  simp only [withSourceAddr, withEchoReplyType, writeIp]
  rw [getD_setByte_ne _ _ _ _ (by omega), getD_setByte_ne _ _ _ _ (by omega),
    getD_setByte_ne _ _ _ _ (by omega), getD_setByte_ne _ _ _ _ (by omega),
    getD_set_ne _ _ _ _ p5]

theorem getD_mutated_src1 (l : List Nat) (a : Ipv4Addr) (h : 12 < l.length) :
    (withSourceAddr (withEchoReplyType l) a).getD 12 0 = a.o1 % 256 := by
  simp [withSourceAddr, withEchoReplyType, writeIp, setByte,
    List.getD_eq_getElem?_getD, List.getElem?_set, h]

theorem getD_mutated_src2 (l : List Nat) (a : Ipv4Addr) (h : 13 < l.length) :
    (withSourceAddr (withEchoReplyType l) a).getD 13 0 = a.o2 % 256 := by
  simp [withSourceAddr, withEchoReplyType, writeIp, setByte,
    List.getD_eq_getElem?_getD, List.getElem?_set, h]

theorem getD_mutated_src3 (l : List Nat) (a : Ipv4Addr) (h : 14 < l.length) :
    (withSourceAddr (withEchoReplyType l) a).getD 14 0 = a.o3 % 256 := by
  simp [withSourceAddr, withEchoReplyType, writeIp, setByte,
    List.getD_eq_getElem?_getD, List.getElem?_set, h]

theorem getD_mutated_src4 (l : List Nat) (a : Ipv4Addr) (h : 15 < l.length) :
    (withSourceAddr (withEchoReplyType l) a).getD 15 0 = a.o4 % 256 := by
  simp [withSourceAddr, withEchoReplyType, writeIp, setByte,
    List.getD_eq_getElem?_getD, List.getElem?_set, h]

theorem getD_mutated_type (l : List Nat) (a : Ipv4Addr) (h : 20 < l.length) :
    (withSourceAddr (withEchoReplyType l) a).getD 20 0 = 0 := by
  simp [withSourceAddr, withEchoReplyType, writeIp, setByte,
    List.getD_eq_getElem?_getD, List.getElem?_set, h]

theorem ipv4Payload_length_28 (p : List Nat) (hlen : p.length = 28)
    (h0 : p.getD 0 0 = 69) (h2 : p.getD 2 0 = 0) (h3 : p.getD 3 0 = 28) :
    (ipv4Payload p).length = 8 := by
  simp only [ipv4Payload, ipv4PayloadLength, ipv4OptionsLength,
    ipv4HeaderLengthField, ipv4TotalLength, readU16]
  rw [show (2 : Nat) + 1 = 3 from rfl, h0, h2, h3, hlen]
  norm_num
  simp [List.length_drop, List.length_take, hlen]

theorem ipv4Payload_getD_28 (p : List Nat) (hlen : p.length = 28)
    (h0 : p.getD 0 0 = 69) (h2 : p.getD 2 0 = 0) (h3 : p.getD 3 0 = 28)
    (j : Nat) (hj : j < 8) :
    (ipv4Payload p).getD j 0 = p.getD (20 + j) 0 := by
  simp only [ipv4Payload, ipv4PayloadLength, ipv4OptionsLength,
    ipv4HeaderLengthField, ipv4TotalLength, readU16]
  rw [show (2 : Nat) + 1 = 3 from rfl, h0, h2, h3, hlen]
  norm_num
  rw [List.getElem?_take_of_lt (by omega)]

/-- C2 counterexample: validating the constructed request for target
8.8.8.8 with sequence 7 (built from the sample configuration), with only
the ICMP type byte flipped to EchoReply, is rejected: the IPv4 source field
of the request still holds the interface address 192.168.1.7, and the
source gate compares it against the probed address 8.8.8.8, so the claimed
round trip does not recover `(addr, seq)`. -/
theorem roundTrip_counterexample :
    is_expected_packet
      (withEchoReplyType
        ((IcmpProbe.frameBytes sampleConf ⟨8, 8, 8, 8⟩ 7).drop 14))
      ⟨8, 8, 8, 8⟩ 7 = some false := by
  decide

/-- C2 amended: the round trip holds once the faked reply also carries the
probed address in the IPv4 source field: building the template, updating
for `(addr, seq)`, stripping the Ethernet header, flipping the ICMP type to
EchoReply and setting the source field to `addr` yields acceptance for
exactly `(addr, seq)`. -/
theorem roundTrip_amended (conf : EthernetConf) (a : Ipv4Addr) (s : Nat)
    (ha : a.Valid) (hs : s < 65536) :
    is_expected_packet
      (withSourceAddr
        (withEchoReplyType ((IcmpProbe.frameBytes conf a s).drop 14)) a)
      a s = some true := by
  obtain ⟨ha1, ha2, ha3, ha4⟩ := ha
  have hframe : ∀ i, ¬ mutableIdx i →
      (IcmpProbe.frameBytes conf a s).getD i 0 =
        (IcmpProbe.new conf).getD i 0 := by
    intro i hi
    rw [frameBytes_def]
    exact updated_getD_untouched (IcmpProbe.new conf) a s i hi
  have hlenF : (IcmpProbe.frameBytes conf a s).length = 42 := by
    rw [frameBytes_def, length_updated, length_new]
  have h40 : (IcmpProbe.frameBytes conf a s).getD 40 0 = s / 256 % 256 := by
    rw [frameBytes_def]
    exact updated_getD_40 (IcmpProbe.new conf) a s (length_new conf)
  have h41 : (IcmpProbe.frameBytes conf a s).getD 41 0 = s % 256 := by
    rw [frameBytes_def]
    exact updated_getD_41 (IcmpProbe.new conf) a s (length_new conf)
  set D := (IcmpProbe.frameBytes conf a s).drop 14 with hD
  have hlenD : D.length = 28 := by
    rw [hD, List.length_drop, hlenF]
  set M := withSourceAddr (withEchoReplyType D) a with hM
  have hlenM : M.length = 28 := by
    rw [hM]
    simp only [withSourceAddr, withEchoReplyType, length_writeIp,
      List.length_set]
    exact hlenD
  have hMget : ∀ j, 12 ≠ j → 13 ≠ j → 14 ≠ j → 15 ≠ j → 20 ≠ j →
      M.getD j 0 = (IcmpProbe.frameBytes conf a s).getD (14 + j) 0 := by
    intro j p1 p2 p3 p4 p5
    rw [hM, getD_mutated_untouched D a j p1 p2 p3 p4 p5, hD, getD_drop]
  have h0 : M.getD 0 0 = 69 := by
    rw [hMget 0 (by omega) (by omega) (by omega) (by omega) (by omega)]
    exact (hframe 14 (by decide)).trans (new_byte_14 conf)
  have h2 : M.getD 2 0 = 0 := by
    rw [hMget 2 (by omega) (by omega) (by omega) (by omega) (by omega)]
    exact (hframe 16 (by decide)).trans (new_byte_16 conf)
  have h3 : M.getD 3 0 = 28 := by
    rw [hMget 3 (by omega) (by omega) (by omega) (by omega) (by omega)]
    exact (hframe 17 (by decide)).trans (new_byte_17 conf)
  have h9 : M.getD 9 0 = 1 := by
    rw [hMget 9 (by omega) (by omega) (by omega) (by omega) (by omega)]
    exact (hframe 23 (by decide)).trans (new_byte_23 conf)
  have h21 : M.getD 21 0 = 0 := by
    rw [hMget 21 (by omega) (by omega) (by omega) (by omega) (by omega)]
    exact (hframe 35 (by decide)).trans (new_byte_35 conf)
  have h26 : M.getD 26 0 = s / 256 % 256 := by
    rw [hMget 26 (by omega) (by omega) (by omega) (by omega) (by omega)]
    exact h40
  have h27 : M.getD 27 0 = s % 256 := by
    rw [hMget 27 (by omega) (by omega) (by omega) (by omega) (by omega)]
    exact h41
  have h12 : M.getD 12 0 = a.o1 := by
    rw [hM, getD_mutated_src1 D a (by omega)]
    exact Nat.mod_eq_of_lt ha1
  have h13 : M.getD 13 0 = a.o2 := by
    rw [hM, getD_mutated_src2 D a (by omega)]
    exact Nat.mod_eq_of_lt ha2
  have h14 : M.getD 14 0 = a.o3 := by
    rw [hM, getD_mutated_src3 D a (by omega)]
    exact Nat.mod_eq_of_lt ha3
  have h15 : M.getD 15 0 = a.o4 := by
    rw [hM, getD_mutated_src4 D a (by omega)]
    exact Nat.mod_eq_of_lt ha4
  have h20 : M.getD 20 0 = 0 := by
    rw [hM, getD_mutated_type D a (by omega)]
  have hpayLen : (ipv4Payload M).length = 8 :=
    ipv4Payload_length_28 M hlenM h0 h2 h3
  have htot : ipv4TotalLength M = 28 := by
    unfold ipv4TotalLength readU16
    rw [show (2 : Nat) + 1 = 3 from rfl, h2, h3]
  have hsrc : ipv4SourceOf M = a := by
    unfold ipv4SourceOf
    rw [h12, h13, h14, h15]
  have hproto : ipv4ProtocolOf M = 1 := h9
  have htype : icmpTypeOf M = 0 := by
    unfold icmpTypeOf
    rw [ipv4Payload_getD_28 M hlenM h0 h2 h3 0 (by omega)]
    exact h20
  have hcode : icmpCodeOf M = 0 := by
    unfold icmpCodeOf
    rw [ipv4Payload_getD_28 M hlenM h0 h2 h3 1 (by omega),
      show (20 : Nat) + 1 = 21 from rfl]
    exact h21
  have hhdr : replyHeaderLen M = 20 := by
    unfold replyHeaderLen
    rw [htot, hpayLen]
  have hseq : replySeqOf M = s := by
    unfold replySeqOf readU16
    rw [hhdr, getD_drop, getD_drop, show (20 : Nat) + 6 = 26 from rfl,
      show (20 : Nat) + (6 + 1) = 27 from rfl, h26, h27]
    exact u16_roundtrip s hs
  unfold is_expected_packet
  rw [if_neg (by omega), if_neg (by simp [hsrc]), if_neg (by simp [hproto]),
    if_neg (by omega), if_neg (by simp [htype, hcode]), if_neg (by omega),
    if_neg (by omega), if_neg (by rw [List.length_drop, hhdr, hlenM]; omega),
    hseq]
  simp

/-- Closed instance of the amended C2 at the sample configuration, target
8.8.8.8 and sequence 7. -/
theorem roundTrip_amended_witness :
    Ipv4Addr.Valid ⟨8, 8, 8, 8⟩ ∧ 7 < 65536 ∧
      is_expected_packet
        (withSourceAddr
          (withEchoReplyType
            ((IcmpProbe.frameBytes sampleConf ⟨8, 8, 8, 8⟩ 7).drop 14))
          ⟨8, 8, 8, 8⟩)
        ⟨8, 8, 8, 8⟩ 7 = some true :=
  ⟨by decide, by decide,
    roundTrip_amended sampleConf ⟨8, 8, 8, 8⟩ 7 (by decide) (by decide)⟩

theorem ext_getD (l1 l2 : List Nat) (hlen : l1.length = l2.length)
    (h : ∀ j, j < l1.length → l1.getD j 0 = l2.getD j 0) : l1 = l2 := by
  apply List.ext_getElem?
  intro n
  by_cases hn : n < l1.length
  · have hx := h n hn
    rw [List.getD_eq_getElem?_getD, List.getD_eq_getElem?_getD] at hx
    rcases e1 : l1[n]? with _ | x
    · have := List.getElem?_eq_none_iff.mp e1
      omega
    · rcases e2 : l2[n]? with _ | y
      · have := List.getElem?_eq_none_iff.mp e2
        omega
      · rw [e1, e2] at hx
        simp only [Option.getD_some] at hx
        rw [hx]
  · have e1 : l1[n]? = none := List.getElem?_eq_none (by omega)
    have e2 : l2[n]? = none := List.getElem?_eq_none (by omega)
    rw [e1, e2]

theorem getD_take_of_lt (l : List Nat) (n j : Nat) (h : j < n) :
    (l.take n).getD j 0 = l.getD j 0 := by
  simp [List.getD_eq_getElem?_getD, List.getElem?_take_of_lt h]

theorem getD_setU16_ne (l : List Nat) (i j v : Nat) (h1 : i ≠ j)
    (h2 : i + 1 ≠ j) :
    (setU16 l i v).getD j 0 = l.getD j 0 := by
  unfold setU16
  rw [getD_setByte_ne _ _ _ _ h2, getD_setByte_ne _ _ _ _ h1]

theorem getD_setU16_hi (l : List Nat) (i v : Nat) (h : i < l.length) :
    (setU16 l i v).getD i 0 = v / 256 % 256 := by
  unfold setU16
  rw [getD_setByte_ne _ _ _ _ (by omega), getD_setByte_eq _ _ _ (by simpa)]

theorem getD_setU16_lo (l : List Nat) (i v : Nat) (h : i + 1 < l.length) :
    (setU16 l i v).getD (i + 1) 0 = v % 256 := by
  unfold setU16
  rw [getD_setByte_eq _ _ _ (by simpa [setByte])]

theorem getD_writeIp_ne (l : List Nat) (i : Nat) (a : Ipv4Addr) (j : Nat)
    (h1 : i ≠ j) (h2 : i + 1 ≠ j) (h3 : i + 2 ≠ j) (h4 : i + 3 ≠ j) :
    (writeIp l i a).getD j 0 = l.getD j 0 := by
  unfold writeIp
  rw [getD_setByte_ne _ _ _ _ h4, getD_setByte_ne _ _ _ _ h3,
    getD_setByte_ne _ _ _ _ h2, getD_setByte_ne _ _ _ _ h1]

theorem getD_writeIp_1 (l : List Nat) (i : Nat) (a : Ipv4Addr)
    (h : i < l.length) :
    (writeIp l i a).getD i 0 = a.o1 % 256 := by
  unfold writeIp
  rw [getD_setByte_ne _ _ _ _ (by omega), getD_setByte_ne _ _ _ _ (by omega),
    getD_setByte_ne _ _ _ _ (by omega), getD_setByte_eq _ _ _ (by simpa)]

theorem getD_writeIp_2 (l : List Nat) (i : Nat) (a : Ipv4Addr)
    (h : i + 1 < l.length) :
    (writeIp l i a).getD (i + 1) 0 = a.o2 % 256 := by
  unfold writeIp
  rw [getD_setByte_ne _ _ _ _ (by omega), getD_setByte_ne _ _ _ _ (by omega),
    getD_setByte_eq _ _ _ (by simpa [setByte])]

theorem getD_writeIp_3 (l : List Nat) (i : Nat) (a : Ipv4Addr)
    (h : i + 2 < l.length) :
    (writeIp l i a).getD (i + 2) 0 = a.o3 % 256 := by
  unfold writeIp
  rw [getD_setByte_ne _ _ _ _ (by omega),
    getD_setByte_eq _ _ _ (by simpa [setByte])]

theorem getD_writeIp_4 (l : List Nat) (i : Nat) (a : Ipv4Addr)
    (h : i + 3 < l.length) :
    (writeIp l i a).getD (i + 3) 0 = a.o4 % 256 := by
  unfold writeIp
  rw [getD_setByte_eq _ _ _ (by simpa [setByte])]

theorem beWords_getD (l : List Nat) (k : Nat) :
    (beWords l).getD k 0 = l.getD (2 * k) 0 * 256 + l.getD (2 * k + 1) 0 ∨
      l.length ≤ 2 * k + 1 := by
  induction k generalizing l with
  | zero =>
    cases l with
    | nil => right; simp
    | cons a t =>
      cases t with
      | nil => right; simp
      | cons b r => left; simp [beWords]
  | succ k ih =>
    cases l with
    | nil => right; simp
    | cons a t =>
      cases t with
      | nil => right; simp
      | cons b r =>
        rcases ih r with hih | hih
        · left
          have e1 : 2 * (k + 1) = 2 * k + 1 + 1 := by omega
          rw [e1]
          simp only [beWords, List.getD_cons_succ]
          exact hih
        · right
          simp only [List.length_cons]
          omega

/-- The value stored in the IPv4 checksum field by the update: the pnet IPv4
checksum of the IPv4 packet after the destination is written and the
checksum field zeroed. -/
def ipv4CkOf (b : List Nat) (a : Ipv4Addr) : Nat :=
  ipv4PnetChecksum ((setU16 (writeIp b 30 a) 24 0).drop 14)

/-- The value stored in the ICMP checksum field by the update: the pnet ICMP
checksum of the echo request after the sequence number is written and the
checksum field zeroed. -/
def icmpCkOf (b : List Nat) (a : Ipv4Addr) (s : Nat) : Nat :=
  icmpPnetChecksum
    (((setU16 (setU16 (IcmpProbe.withIpv4Fields b a) (34 + 6) s)
        (34 + 2) 0).drop 34).take 8)

theorem updated_getD_24 (b : List Nat) (a : Ipv4Addr) (s : Nat)
    (hlen : b.length = 42) :
    (IcmpProbe.withIcmpFields (IcmpProbe.withIpv4Fields b a) 34 8 s).getD 24 0 =
      ipv4CkOf b a / 256 % 256 := by
  unfold IcmpProbe.withIcmpFields
  rw [getD_setU16_ne _ _ _ _ (by omega) (by omega),
    getD_setU16_ne _ _ _ _ (by omega) (by omega),
    getD_setU16_ne _ _ _ _ (by omega) (by omega)]
  unfold IcmpProbe.withIpv4Fields
  rw [getD_setU16_hi _ _ _ (by simp [hlen])]
  rfl

theorem updated_getD_25 (b : List Nat) (a : Ipv4Addr) (s : Nat)
    (hlen : b.length = 42) :
    (IcmpProbe.withIcmpFields (IcmpProbe.withIpv4Fields b a) 34 8 s).getD 25 0 =
      ipv4CkOf b a % 256 := by
  unfold IcmpProbe.withIcmpFields
  rw [getD_setU16_ne _ _ _ _ (by omega) (by omega),
    getD_setU16_ne _ _ _ _ (by omega) (by omega),
    getD_setU16_ne _ _ _ _ (by omega) (by omega)]
  unfold IcmpProbe.withIpv4Fields
  exact getD_setU16_lo _ _ _ (by simp [hlen])

theorem updated_getD_36 (b : List Nat) (a : Ipv4Addr) (s : Nat)
    (hlen : b.length = 42) :
    (IcmpProbe.withIcmpFields (IcmpProbe.withIpv4Fields b a) 34 8 s).getD 36 0 =
      icmpCkOf b a s / 256 % 256 := by
  unfold IcmpProbe.withIcmpFields
  exact getD_setU16_hi _ _ _ (by simp [IcmpProbe.withIpv4Fields, hlen])

theorem updated_getD_37 (b : List Nat) (a : Ipv4Addr) (s : Nat)
    (hlen : b.length = 42) :
    (IcmpProbe.withIcmpFields (IcmpProbe.withIpv4Fields b a) 34 8 s).getD 37 0 =
      icmpCkOf b a s % 256 := by
  unfold IcmpProbe.withIcmpFields
  exact getD_setU16_lo _ _ _ (by simp [IcmpProbe.withIpv4Fields, hlen])

theorem headerSliceEq (b : List Nat) (a : Ipv4Addr) (s : Nat)
    (hlen : b.length = 42) :
    zero2 (((IcmpProbe.withIcmpFields (IcmpProbe.withIpv4Fields b a)
        34 8 s).drop 14).take 20) 10 =
      ((setU16 (writeIp b 30 a) 24 0).drop 14).take 20 := by
  apply ext_getD
  · simp [zero2, IcmpProbe.withIcmpFields, IcmpProbe.withIpv4Fields, hlen]
  · intro j hj
    have hj20 : j < 20 := by
      simpa [zero2, IcmpProbe.withIcmpFields, IcmpProbe.withIpv4Fields,
        hlen] using hj
    interval_cases j <;>
      simp [zero2, IcmpProbe.withIcmpFields, IcmpProbe.withIpv4Fields, setU16,
        setByte, writeIp, List.getD_eq_getElem?_getD, List.getElem?_set,
        List.getElem?_drop, List.getElem?_take, hlen, List.length_set,
        List.length_take, List.length_drop]

theorem icmpSliceEq (b : List Nat) (a : Ipv4Addr) (s : Nat)
    (hlen : b.length = 42) :
    zero2 ((IcmpProbe.withIcmpFields (IcmpProbe.withIpv4Fields b a)
        34 8 s).drop 34) 2 =
      ((setU16 (setU16 (IcmpProbe.withIpv4Fields b a) (34 + 6) s)
          (34 + 2) 0).drop 34).take 8 := by
  apply ext_getD
  · simp [zero2, IcmpProbe.withIcmpFields, IcmpProbe.withIpv4Fields, hlen]
  · intro j hj
    have hj8 : j < 8 := by
      simpa [zero2, IcmpProbe.withIcmpFields, IcmpProbe.withIpv4Fields,
        hlen] using hj
    interval_cases j <;>
      simp [zero2, IcmpProbe.withIcmpFields, IcmpProbe.withIpv4Fields, setU16,
        setByte, writeIp, List.getD_eq_getElem?_getD, List.getElem?_set,
        List.getElem?_drop, List.getElem?_take, hlen, List.length_set,
        List.length_take, List.length_drop]

theorem ipv4PnetChecksum_eval (p : List Nat) (h0 : p.getD 0 0 = 69)
    (hl : p.length = 28) :
    ipv4PnetChecksum p = pnetChecksum (p.take 20) 5 := by
  unfold ipv4PnetChecksum ipv4HeaderLengthField
  rw [h0, hl]
  norm_num

/-- C3: in every constructed request (template built, then updated for any
target), both stored checksums verify under the RFC 791 and RFC 792 rules:
recomputing the ones-complement checksum over the IPv4 header (respectively
the ICMP message) with its checksum field zeroed reproduces the stored
16-bit value. -/
theorem checksums_verify (conf : EthernetConf) (a : Ipv4Addr) (s : Nat) :
    rfcChecksum
        (zero2 (((IcmpProbe.frameBytes conf a s).drop 14).take 20) 10) =
      readU16 (IcmpProbe.frameBytes conf a s) 24 ∧
    rfcChecksum (zero2 ((IcmpProbe.frameBytes conf a s).drop 34) 2) =
      readU16 (IcmpProbe.frameBytes conf a s) 36 := by
  have hlen := length_new conf
  rw [frameBytes_def]
  constructor
  · rw [headerSliceEq (IcmpProbe.new conf) a s hlen]
    unfold readU16
    rw [show (24 : Nat) + 1 = 25 from rfl,
      updated_getD_24 (IcmpProbe.new conf) a s hlen,
      updated_getD_25 (IcmpProbe.new conf) a s hlen]
    have hle : ipv4CkOf (IcmpProbe.new conf) a ≤ 65535 := by
      unfold ipv4CkOf ipv4PnetChecksum
      exact pnetChecksum_le _ _
    rw [u16_roundtrip _ (by omega)]
    unfold ipv4CkOf
    rw [ipv4PnetChecksum_eval _ ?h0 ?hl]
    case h0 =>
      rw [getD_drop, show (14 : Nat) + 0 = 14 from rfl,
        getD_setU16_ne _ _ _ _ (by omega) (by omega),
        getD_writeIp_ne _ _ _ _ (by omega) (by omega) (by omega) (by omega)]
      exact new_byte_14 conf
    case hl => simp [hlen]
    refine (pnetChecksum_eq_rfc _ 5 ?_).symm
    rcases beWords_getD
        (((setU16 (writeIp (IcmpProbe.new conf) 30 a) 24 0).drop 14).take 20)
        5 with hw | hw
    · rw [hw, show 2 * 5 = 10 from by norm_num,
        show 2 * 5 + 1 = 10 + 1 from by norm_num,
        getD_take_of_lt _ _ _ (by omega), getD_take_of_lt _ _ _ (by omega),
        getD_drop, getD_drop, show (14 : Nat) + 10 = 24 from rfl,
        show (14 : Nat) + (10 + 1) = 24 + 1 from rfl,
        getD_setU16_hi _ _ _ (by simp [hlen]),
        getD_setU16_lo _ _ _ (by simp [hlen])]
    · exfalso
      simp [hlen] at hw
  · rw [icmpSliceEq (IcmpProbe.new conf) a s hlen]
    unfold readU16
    rw [show (36 : Nat) + 1 = 37 from rfl,
      updated_getD_36 (IcmpProbe.new conf) a s hlen,
      updated_getD_37 (IcmpProbe.new conf) a s hlen]
    have hle : icmpCkOf (IcmpProbe.new conf) a s ≤ 65535 := by
      unfold icmpCkOf icmpPnetChecksum
      exact pnetChecksum_le _ _
    rw [u16_roundtrip _ (by omega)]
    unfold icmpCkOf icmpPnetChecksum
    refine (pnetChecksum_eq_rfc _ 1 ?_).symm
    rcases beWords_getD
        (((setU16 (setU16 (IcmpProbe.withIpv4Fields (IcmpProbe.new conf) a)
            (34 + 6) s) (34 + 2) 0).drop 34).take 8) 1 with hw | hw
    · rw [hw, show 2 * 1 = 2 from by norm_num,
        show 2 * 1 + 1 = 2 + 1 from by norm_num,
        getD_take_of_lt _ _ _ (by omega), getD_take_of_lt _ _ _ (by omega),
        getD_drop, getD_drop, show (34 : Nat) + 2 = 34 + 2 from rfl,
        show (34 : Nat) + (2 + 1) = 34 + 2 + 1 from rfl,
        getD_setU16_hi _ _ _ (by simp [IcmpProbe.withIpv4Fields, hlen]),
        getD_setU16_lo _ _ _ (by simp [IcmpProbe.withIpv4Fields, hlen])]
    · exfalso
      simp [IcmpProbe.withIpv4Fields, hlen] at hw
